import Mathlib

/-!
# SDS sensor demo (`demo/demo.c`): shallow embedding and verified properties

The three threads of `demo.c` (`read_sensors`, `button`, `demo`) are embedded as
programs over an abstract environment `World σ` that supplies every external
collaborator the file calls (sensor driver, SDS stream buffer, SDS recorder,
CMSIS-RTOS2 kernel, VIO, `printf`).  A program threads the environment state and
produces the list of external calls it made, each with its arguments and the
value the environment returned.

Machine integers are `Nat`; `uint32_t` arithmetic that can wrap is reduced
with `u32`.  A division by zero makes the program undefined (`none`).
-/

namespace SDSDemo

/-! ## Configuration constants (demo.c lines 17-52 and 87-91) -/

def SDS_BUF_SIZE_ACCELEROMETER : Nat := 4096
def SDS_BUF_SIZE_TEMPERATURE_SENSOR : Nat := 128
def SDS_THRESHOLD_ACCELEROMETER : Nat := 624
def SDS_THRESHOLD_TEMPERATURE_SENSOR : Nat := 4
def REC_BUF_SIZE_ACCELEROMETER : Nat := 1024
def REC_BUF_SIZE_TEMPERATURE_SENSOR : Nat := 256
def REC_IO_THRESHOLD_ACCELEROMETER : Nat := 900
def REC_IO_THRESHOLD_TEMPERATURE_SENSOR : Nat := 16
def SENSOR_POLLING_INTERVAL : Nat := 5
def SENSOR_BUF_SIZE : Nat := 6

def EVENT_DATA_ACCELEROMETER : Nat := 1 <<< 0
def EVENT_DATA_TEMPERATURE_SENSOR : Nat := 1 <<< 1
def EVENT_BUTTON : Nat := 1 <<< 2
def EVENT_DATA_MASK : Nat := EVENT_DATA_ACCELEROMETER ||| EVENT_DATA_TEMPERATURE_SENSOR
def EVENT_MASK : Nat := EVENT_DATA_MASK ||| EVENT_BUTTON

/-- Wrap-around of `uint32_t` arithmetic. -/
def u32 (n : Nat) : Nat := n % 2 ^ 32

/-- The null handle (`NULL`). -/
def NULL : Nat := 0

/-- Constants of the headers `cmsis_os2.h`, `cmsis_vio.h`, `sds.h` and
`sds_rec.h`, which are not part of `demo.c`; they are parameters of the
embedding. -/
structure Headers where
  vioBUTTON0 : Nat
  osFlagsError : Nat
  osFlagsWaitAny : Nat
  osWaitForever : Nat
  SDS_EVENT_DATA_HIGH : Nat
  SDS_REC_EVENT_IO_ERROR : Nat

/-- The two channels; a value stands for the channel's sensor identifier
(`sensorId_*`) and for its stream identifier (`sdsId_*`). -/
inductive Sensor where
  | accelerometer
  | temperatureSensor
  deriving DecidableEq, Repr

/-- The fields of `sensorConfig_t` that `demo.c` reads. -/
structure sensorConfig_t where
  name : String
  sample_size : Nat
  deriving DecidableEq, Repr

/-- An argument handed to `printf` after the format string. -/
inductive PrintfArg where
  | str (s : String)
  | int (i : Int)
  | float32 (bytes : List Nat)
  deriving DecidableEq, Repr

/-- One external call, with its arguments and the value the environment returned.
Buffers are lists of bytes; an out-parameter buffer is recorded with the
contents it has after the call. -/
inductive Call where
  | osKernelGetTickCount (ret : Nat)
  | osDelayUntil (ticks : Nat)
  | osDelay (ticks : Nat)
  | osThreadFlagsSet (flags : Nat)
  | osThreadFlagsWait (flags options timeout ret : Nat)
  | vioGetSignal (mask ret : Nat)
  | sensorGetStatus (id : Sensor) (active : Nat)
  | sensorEnable (id : Sensor)
  | sensorDisable (id : Sensor)
  | sensorReadSamples (id : Sensor) (num_samples buf_size ret : Nat) (buf : List Nat)
  | sdsWrite (id : Sensor) (buf : List Nat) (buf_size ret : Nat)
  | sdsRead (id : Sensor) (buf_size ret : Nat) (buf : List Nat)
  | sdsClear (id : Sensor)
  | sdsRecOpen (name : String) (buf_size io_threshold ret : Nat)
  | sdsRecWrite (id timestamp : Nat) (buf : List Nat) (buf_size ret : Nat)
  | sdsRecClose (id : Nat)
  | printf (format : String) (args : List PrintfArg)
  deriving DecidableEq, Repr

/-- The environment of `demo.c`: every external function it calls, as a
transition on the environment state `σ`.  `sensorReadSamples` receives the
contents of its out-parameter buffer and returns its new contents; `sdsRead`
(given the stream and the requested length) returns its result and the bytes it
stores at the start of its out-parameter buffer. -/
structure World (σ : Type) where
  osKernelGetTickCount : σ → Nat × σ
  osDelayUntil : Nat → σ → σ
  osDelay : Nat → σ → σ
  osThreadFlagsSet : Nat → σ → σ
  osThreadFlagsWait : Nat → Nat → Nat → σ → Nat × σ
  vioGetSignal : Nat → σ → Nat × σ
  sensorGetStatus : Sensor → σ → Nat × σ
  sensorEnable : Sensor → σ → σ
  sensorDisable : Sensor → σ → σ
  sensorReadSamples : Sensor → Nat → List Nat → Nat → σ → (Nat × List Nat) × σ
  sdsWrite : Sensor → List Nat → Nat → σ → Nat × σ
  sdsRead : Sensor → Nat → σ → (Nat × List Nat) × σ
  sdsClear : Sensor → σ → σ
  sdsRecOpen : String → Nat → Nat → σ → Nat × σ
  sdsRecWrite : Nat → Nat → List Nat → Nat → σ → Nat × σ
  sdsRecClose : Nat → σ → σ
  printf : String → List PrintfArg → σ → σ

/-! ## Programs -/

/-- A program: from an environment state to a result, the next environment state
and the calls made, or `none` when the C program's behaviour is undefined. -/
def Prog (σ α : Type) : Type := σ → Option (α × σ × List Call)

namespace Prog

variable {σ α β : Type}

def ret (a : α) : Prog σ α := fun s => some (a, s, [])

def seq (m : Prog σ α) (f : α → Prog σ β) : Prog σ β := fun s =>
  match m s with
  | none => none
  | some (a, s1, t1) =>
    match f a s1 with
    | none => none
    | some (b, s2, t2) => some (b, s2, t1 ++ t2)

instance : Monad (Prog σ) where
  pure := ret
  bind := seq

/-- Unsigned division `a / b`; undefined for `b = 0`. -/
def udiv (a b : Nat) : Prog σ Nat := fun s =>
  if b = 0 then none else some (a / b, s, [])

end Prog

namespace World

variable {σ : Type} (W : World σ)

def call_osKernelGetTickCount : Prog σ Nat := fun s =>
  let r := W.osKernelGetTickCount s
  some (r.1, r.2, [Call.osKernelGetTickCount r.1])

def call_osDelayUntil (ticks : Nat) : Prog σ Unit := fun s =>
  some ((), W.osDelayUntil ticks s, [Call.osDelayUntil ticks])

def call_osDelay (ticks : Nat) : Prog σ Unit := fun s =>
  some ((), W.osDelay ticks s, [Call.osDelay ticks])

def call_osThreadFlagsSet (flags : Nat) : Prog σ Unit := fun s =>
  some ((), W.osThreadFlagsSet flags s, [Call.osThreadFlagsSet flags])

def call_osThreadFlagsWait (flags options timeout : Nat) : Prog σ Nat := fun s =>
  let r := W.osThreadFlagsWait flags options timeout s
  some (r.1, r.2, [Call.osThreadFlagsWait flags options timeout r.1])

def call_vioGetSignal (mask : Nat) : Prog σ Nat := fun s =>
  let r := W.vioGetSignal mask s
  some (r.1, r.2, [Call.vioGetSignal mask r.1])

def call_sensorGetStatus (id : Sensor) : Prog σ Nat := fun s =>
  let r := W.sensorGetStatus id s
  some (r.1, r.2, [Call.sensorGetStatus id r.1])

def call_sensorEnable (id : Sensor) : Prog σ Unit := fun s =>
  some ((), W.sensorEnable id s, [Call.sensorEnable id])

def call_sensorDisable (id : Sensor) : Prog σ Unit := fun s =>
  some ((), W.sensorDisable id s, [Call.sensorDisable id])

def call_sensorReadSamples (id : Sensor) (num_samples : Nat) (buf : List Nat)
    (buf_size : Nat) : Prog σ (Nat × List Nat) := fun s =>
  let r := W.sensorReadSamples id num_samples buf buf_size s
  some (r.1, r.2, [Call.sensorReadSamples id num_samples buf_size r.1.1 r.1.2])

def call_sdsWrite (id : Sensor) (buf : List Nat) (buf_size : Nat) : Prog σ Nat := fun s =>
  let r := W.sdsWrite id buf buf_size s
  some (r.1, r.2, [Call.sdsWrite id buf buf_size r.1])

/-- The call `sdsRead(id, buf, buf_size)` on a buffer object whose size is the
length of `buf`: the bytes the call stores replace the start of `buf`; storing
more bytes than the object holds is undefined. -/
def call_sdsRead (id : Sensor) (buf : List Nat) (buf_size : Nat) :
    Prog σ (Nat × List Nat) := fun s =>
  let r := W.sdsRead id buf_size s
  if buf.length < r.1.2.length then none
  else
    let buf := r.1.2 ++ buf.drop r.1.2.length
    some ((r.1.1, buf), r.2, [Call.sdsRead id buf_size r.1.1 buf])

def call_sdsClear (id : Sensor) : Prog σ Unit := fun s =>
  some ((), W.sdsClear id s, [Call.sdsClear id])

def call_sdsRecOpen (name : String) (buf_size io_threshold : Nat) : Prog σ Nat := fun s =>
  let r := W.sdsRecOpen name buf_size io_threshold s
  some (r.1, r.2, [Call.sdsRecOpen name buf_size io_threshold r.1])

def call_sdsRecWrite (id timestamp : Nat) (buf : List Nat) (buf_size : Nat) :
    Prog σ Nat := fun s =>
  let r := W.sdsRecWrite id timestamp buf buf_size s
  some (r.1, r.2, [Call.sdsRecWrite id timestamp buf buf_size r.1])

def call_sdsRecClose (id : Nat) : Prog σ Unit := fun s =>
  some ((), W.sdsRecClose id s, [Call.sdsRecClose id])

def call_printf (format : String) (args : List PrintfArg) : Prog σ Unit := fun s =>
  some ((), W.printf format args s, [Call.printf format args])

end World

/-! ## The sampler thread `read_sensors` (demo.c lines 94-140) -/

section read_sensors

variable {σ : Type} (W : World σ) (RECORDER_ENABLED : Bool)

/-- One channel block of the loop body of `read_sensors`: lines 101-117 for the
accelerometer and, with the other channel's identifiers, lines 119-135 for the
temperature sensor.  `recId` is the channel's recorder identifier, `sensorBuf` the
contents of the scratch buffer; the result is its contents afterwards. -/
def read_sensors_channel (id : Sensor) (cfg : sensorConfig_t) (recId timestamp : Nat)
    (sensorBuf : List Nat) : Prog σ (List Nat) := do
  let mut sensorBuf := sensorBuf
  let active ← W.call_sensorGetStatus id
  if active ≠ 0 then
    let mut num ← Prog.udiv SENSOR_BUF_SIZE cfg.sample_size
    (num, sensorBuf) ← W.call_sensorReadSamples id num sensorBuf SENSOR_BUF_SIZE
    if num ≠ 0 then
      let buf_size := u32 (num * cfg.sample_size)
      num ← W.call_sdsWrite id sensorBuf buf_size
      if num ≠ buf_size then
        W.call_printf "%s: SDS write failed\r\n" [PrintfArg.str cfg.name]
      if RECORDER_ENABLED then
        num ← W.call_sdsRecWrite recId timestamp sensorBuf buf_size
        if num ≠ buf_size then
          W.call_printf "%s: Recorder write failed\r\n" [PrintfArg.str cfg.name]
  pure sensorBuf

/-- The static data of `demo.c` that `read_sensors` only reads: the two sensor
configurations and the two recorder identifiers. -/
structure SamplerEnv where
  sensorConfig_accelerometer : sensorConfig_t
  sensorConfig_temperatureSensor : sensorConfig_t
  recId_accelerometer : Nat
  recId_temperatureSensor : Nat

/-- The body of the `for (;;)` loop of `read_sensors` (lines 101-138), on the
local `timestamp` and the scratch buffer `sensorBuf`. -/
def read_sensors_iteration (e : SamplerEnv) (st : Nat × List Nat) :
    Prog σ (Nat × List Nat) := do
  let (timestamp, sensorBuf) := st
  let sensorBuf ← read_sensors_channel W RECORDER_ENABLED Sensor.accelerometer
    e.sensorConfig_accelerometer e.recId_accelerometer timestamp sensorBuf
  let sensorBuf ← read_sensors_channel W RECORDER_ENABLED Sensor.temperatureSensor
    e.sensorConfig_temperatureSensor e.recId_temperatureSensor timestamp sensorBuf
  let timestamp := u32 (timestamp + SENSOR_POLLING_INTERVAL)
  W.call_osDelayUntil timestamp
  pure (timestamp, sensorBuf)

/-- The first `k` iterations of the loop of `read_sensors`. -/
def read_sensors_loop (e : SamplerEnv) : Nat → Nat × List Nat → Prog σ (Nat × List Nat)
  | 0, st => pure st
  | k + 1, st => do
    let st ← read_sensors_iteration W RECORDER_ENABLED e st
    read_sensors_loop e k st

/-- The thread `read_sensors`, run for its first `k` loop iterations: the tick
count is read once (line 99), then the loop runs. -/
def read_sensors (e : SamplerEnv) (sensorBuf : List Nat) (k : Nat) :
    Prog σ (Nat × List Nat) := do
  let timestamp ← W.call_osKernelGetTickCount
  read_sensors_loop W RECORDER_ENABLED e k (timestamp, sensorBuf)

end read_sensors

/-! ## The control thread `button` (demo.c lines 143-159) -/

section button

variable {σ : Type} (W : World σ) (H : Headers)

/-- The body of the `for (;;)` loop of `button` (lines 148-157), on the local
`value_last`.  The flag is always set on the thread `thrId_demo`. -/
def button_iteration (value_last : Nat) : Prog σ Nat := do
  let mut value_last := value_last
  let value ← W.call_vioGetSignal H.vioBUTTON0
  if value ≠ value_last then
    value_last := value
    if value = H.vioBUTTON0 then
      W.call_osThreadFlagsSet EVENT_BUTTON
  W.call_osDelay 100
  pure value_last

/-- The first `k` iterations of the loop of `button`. -/
def button_loop : Nat → Nat → Prog σ Nat
  | 0, value_last => pure value_last
  | k + 1, value_last => do
    let value_last ← button_iteration W H value_last
    button_loop k value_last

/-- The thread `button`, run for its first `k` polls; `value_last` starts at 0
(line 144). -/
def button (k : Nat) : Prog σ Nat :=
  button_loop W H k 0

end button

/-! ## The SDS event callback (demo.c lines 162-173) -/

section sds_event_callback

variable {σ : Type} (W : World σ) (H : Headers)

/-- The function `sds_event_callback`; the stream identifier `id` is one of the
two opened by `demo`. -/
def sds_event_callback (id : Sensor) (event : Nat) : Prog σ Unit := do
  if event &&& H.SDS_EVENT_DATA_HIGH ≠ 0 then
    if id = Sensor.accelerometer then
      W.call_osThreadFlagsSet EVENT_DATA_ACCELEROMETER
    if id = Sensor.temperatureSensor then
      W.call_osThreadFlagsSet EVENT_DATA_TEMPERATURE_SENSOR

end sds_event_callback

/-! ## The recorder event callback (demo.c lines 177-186) -/

section recorder_event_callback

variable {σ : Type} (W : World σ) (H : Headers)

end recorder_event_callback

/-! ## The dispatch loop of `demo` (demo.c lines 230-304) -/

/-- The element `data_u16[i]` of the record buffer `buf` viewed as an array of
`uint16_t` on the little-endian target, after the integer promotion that passes
it to `printf` as an `int`. -/
def data_u16 (buf : List Nat) (i : Nat) : Int :=
  Int.ofNat (buf.getD (2 * i) 0 % 256 + 256 * (buf.getD (2 * i + 1) 0 % 256))

/-- The bytes of `*data_f`, the first four bytes of the record buffer. -/
def data_f (buf : List Nat) : List Nat :=
  buf.take 4

/-- The variables the dispatch loop of `demo` reads and writes: the two recorder
identifiers and the local record buffer `buf` (`uint32_t buf[2]`, 8 bytes). -/
structure DemoState where
  recId_accelerometer : Nat
  recId_temperatureSensor : Nat
  buf : List Nat
  deriving DecidableEq, Repr

section demo

variable {σ : Type} (W : World σ) (H : Headers) (RECORDER_ENABLED : Bool)

/-- The accelerometer half of the button handler (lines 238-257); the result is
the new value of `recId_accelerometer`. -/
def demo_toggle_accelerometer (recId_accelerometer : Nat) : Prog σ Nat := do
  let mut recId_accelerometer := recId_accelerometer
  let active ← W.call_sensorGetStatus Sensor.accelerometer
  if active = 0 then
    W.call_sdsClear Sensor.accelerometer
    if RECORDER_ENABLED then
      recId_accelerometer ← W.call_sdsRecOpen "Accelerometer" REC_BUF_SIZE_ACCELEROMETER
        REC_IO_THRESHOLD_ACCELEROMETER
    W.call_sensorEnable Sensor.accelerometer
    W.call_printf "Accelerometer enabled\r\n" []
  else
    W.call_sensorDisable Sensor.accelerometer
    if RECORDER_ENABLED then
      W.call_sdsRecClose recId_accelerometer
      recId_accelerometer := NULL
    W.call_printf "Accelerometer disabled\r\n" []
  pure recId_accelerometer

/-- The temperature half of the button handler (lines 259-278); the result is
the new value of `recId_temperatureSensor`. -/
def demo_toggle_temperatureSensor (recId_temperatureSensor : Nat) : Prog σ Nat := do
  let mut recId_temperatureSensor := recId_temperatureSensor
  let active ← W.call_sensorGetStatus Sensor.temperatureSensor
  if active = 0 then
    W.call_sdsClear Sensor.temperatureSensor
    if RECORDER_ENABLED then
      recId_temperatureSensor ← W.call_sdsRecOpen "Temperature"
        REC_BUF_SIZE_TEMPERATURE_SENSOR REC_IO_THRESHOLD_TEMPERATURE_SENSOR
    W.call_sensorEnable Sensor.temperatureSensor
    W.call_printf "Temperature sensor enabled\r\n" []
  else
    W.call_sensorDisable Sensor.temperatureSensor
    if RECORDER_ENABLED then
      W.call_sdsRecClose recId_temperatureSensor
      recId_temperatureSensor := NULL
    W.call_printf "Temperature sensor disabled\r\n" []
  pure recId_temperatureSensor

/-- The handler of the button event (lines 236-278). -/
def demo_button_event (st : DemoState) : Prog σ DemoState := do
  W.call_printf "Button pressed\r\n" []
  let recId_accelerometer ← demo_toggle_accelerometer W RECORDER_ENABLED st.recId_accelerometer
  let recId_temperatureSensor ←
    demo_toggle_temperatureSensor W RECORDER_ENABLED st.recId_temperatureSensor
  pure { st with recId_accelerometer := recId_accelerometer,
                 recId_temperatureSensor := recId_temperatureSensor }

/-- The body of the accelerometer read loop (lines 285-289), run for the `n`
remaining values of the loop counter. -/
def demo_accelerometer_loop (cfg : sensorConfig_t) : Nat → List Nat → Prog σ (List Nat)
  | 0, buf => pure buf
  | n + 1, buf => do
    let (num, buf) ← W.call_sdsRead Sensor.accelerometer buf cfg.sample_size
    if num = cfg.sample_size then
      W.call_printf "%s: x=%i, y=%i, z=%i\r\n"
        [PrintfArg.str cfg.name, PrintfArg.int (data_u16 buf 0),
         PrintfArg.int (data_u16 buf 1), PrintfArg.int (data_u16 buf 2)]
    demo_accelerometer_loop cfg n buf

/-- The handler of the accelerometer data event (lines 284-290): the loop bound
`SDS_THRESHOLD_ACCELEROMETER / sample_size`, then the loop. -/
def demo_accelerometer_event (cfg : sensorConfig_t) (buf : List Nat) : Prog σ (List Nat) := do
  let bound ← Prog.udiv SDS_THRESHOLD_ACCELEROMETER cfg.sample_size
  demo_accelerometer_loop W cfg bound buf

/-- The body of the temperature read loop (lines 297-300), run for the `n`
remaining values of the loop counter. -/
def demo_temperatureSensor_loop (cfg : sensorConfig_t) : Nat → List Nat → Prog σ (List Nat)
  | 0, buf => pure buf
  | n + 1, buf => do
    let (num, buf) ← W.call_sdsRead Sensor.temperatureSensor buf cfg.sample_size
    if num = cfg.sample_size then
      W.call_printf "%s: value=%f\r\n"
        [PrintfArg.str cfg.name, PrintfArg.float32 (data_f buf)]
    demo_temperatureSensor_loop cfg n buf

/-- The handler of the temperature data event (lines 296-301). -/
def demo_temperatureSensor_event (cfg : sensorConfig_t) (buf : List Nat) :
    Prog σ (List Nat) := do
  let bound ← Prog.udiv SDS_THRESHOLD_TEMPERATURE_SENSOR cfg.sample_size
  demo_temperatureSensor_loop W cfg bound buf

/-- The handling of the flags `flags` returned by the wait (lines 232-303). -/
def demo_dispatch (e : SamplerEnv) (flags : Nat) (st : DemoState) : Prog σ DemoState := do
  if flags &&& H.osFlagsError = 0 then
    let st ← (if flags &&& EVENT_BUTTON ≠ 0 then
        demo_button_event W RECORDER_ENABLED st
      else pure st)
    let st ← (if flags &&& EVENT_DATA_ACCELEROMETER ≠ 0 then do
        let buf ← demo_accelerometer_event W e.sensorConfig_accelerometer st.buf
        pure { st with buf := buf }
      else pure st)
    if flags &&& EVENT_DATA_TEMPERATURE_SENSOR ≠ 0 then
      let buf ← demo_temperatureSensor_event W e.sensorConfig_temperatureSensor st.buf
      pure { st with buf := buf }
    else pure st
  else
    pure st

/-- The body of the `for(;;)` loop of `demo` (lines 231-303): one wake cycle. -/
def demo_iteration (e : SamplerEnv) (st : DemoState) : Prog σ DemoState := do
  let flags ← W.call_osThreadFlagsWait EVENT_MASK H.osFlagsWaitAny H.osWaitForever
  demo_dispatch W H RECORDER_ENABLED e flags st

end demo

/-! ## Observations on call traces -/

def Call.isSdsRead : Call → Bool
  | Call.sdsRead _ _ _ _ => true
  | _ => false

def Call.isPrintf : Call → Bool
  | Call.printf _ _ => true
  | _ => false

def Call.isOsKernelGetTickCount : Call → Bool
  | Call.osKernelGetTickCount _ => true
  | _ => false

def Call.isOsThreadFlagsWait : Call → Bool
  | Call.osThreadFlagsWait _ _ _ _ => true
  | _ => false

def Call.isOsThreadFlagsSet : Call → Bool
  | Call.osThreadFlagsSet _ => true
  | _ => false

/-- The wake time of an `osDelayUntil` call. -/
def Call.wakeTime : Call → Option Nat
  | Call.osDelayUntil t => some t
  | _ => none

/-- The level returned by a `vioGetSignal` call. -/
def Call.polledLevel : Call → Option Nat
  | Call.vioGetSignal _ v => some v
  | _ => none

/-- The block length handed to a stream-buffer write or to a recorder write. -/
def Call.blockLen : Call → Option Nat
  | Call.sdsWrite _ _ len _ => some len
  | Call.sdsRecWrite _ _ _ len _ => some len
  | _ => none

/-- The number of samples requested from the driver. -/
def Call.requested : Call → Option Nat
  | Call.sensorReadSamples _ n _ _ _ => some n
  | _ => none

/-- Whether the call enables or disables sampling of channel `id`. -/
def Call.togglesSensor (id : Sensor) : Call → Bool
  | Call.sensorEnable j => decide (j = id)
  | Call.sensorDisable j => decide (j = id)
  | _ => false

/-- Whether the call reads the stream buffer of channel `id`. -/
def Call.readsStream (id : Sensor) : Call → Bool
  | Call.sdsRead j _ _ _ => decide (j = id)
  | _ => false

/-- The calls of one channel block of `read_sensors`, given the values the
environment returned: status `a`, sample count `count` with scratch contents
`rbuf`, stream write result `wret`, recorder write result `rret`. -/
def sampler_block_calls (R : Bool) (id : Sensor) (cfg : sensorConfig_t) (recId ts : Nat)
    (a count : Nat) (rbuf : List Nat) (wret rret : Nat) : List Call :=
  Call.sensorGetStatus id a ::
    (if a = 0 then [] else
      Call.sensorReadSamples id (SENSOR_BUF_SIZE / cfg.sample_size) SENSOR_BUF_SIZE count rbuf ::
        (if count = 0 then [] else
          Call.sdsWrite id rbuf (u32 (count * cfg.sample_size)) wret ::
            ((if wret ≠ u32 (count * cfg.sample_size) then
                [Call.printf "%s: SDS write failed\r\n" [PrintfArg.str cfg.name]] else []) ++
              (if R then
                Call.sdsRecWrite recId ts rbuf (u32 (count * cfg.sample_size)) rret ::
                  (if rret ≠ u32 (count * cfg.sample_size) then
                    [Call.printf "%s: Recorder write failed\r\n" [PrintfArg.str cfg.name]]
                  else [])
              else []))))

/-! ## Specifications of the sampler, in the words of the design -/

section sampler_spec

variable {σ : Type} (W : World σ)

end sampler_spec

/-- For each poll of the level sequence, whether it is a rising transition: the
level differs from the previously observed level `prev` and is the pressed
level. -/
def risingEdges (pressed : Nat) : Nat → List Nat → List Bool
  | _, [] => []
  | prev, v :: vs => decide (v ≠ prev ∧ v = pressed) :: risingEdges pressed v vs

/-- The calls of one poll that read level `v`: the signal read, the button event
when `raise` holds, the delay. -/
def button_poll_calls (H : Headers) (v : Nat) (raise : Bool) : List Call :=
  Call.vioGetSignal H.vioBUTTON0 v ::
    ((if raise then [Call.osThreadFlagsSet EVENT_BUTTON] else []) ++ [Call.osDelay 100])

/-- The calls of the polls that read the levels `levels`, the level observed
before being `prev`: the event is raised on the rising transitions only. -/
def button_calls (H : Headers) : Nat → List Nat → List Call
  | _, [] => []
  | prev, v :: vs =>
    button_poll_calls H v (decide (v ≠ prev ∧ v = H.vioBUTTON0)) ++ button_calls H v vs

/-- The levels the first `k` polls of the button signal return in environment
`W` from state `s`, with the state after them; `prev` is the level observed
before.  Between two polls the environment sees the button event, when the
poll is a rising transition, and the delay. -/
def button_polls {σ : Type} (W : World σ) (H : Headers) : Nat → Nat → σ → σ × List Nat
  | 0, _, s => (s, [])
  | k + 1, prev, s =>
    let v := W.vioGetSignal H.vioBUTTON0 s
    let s1 := if v.1 ≠ prev ∧ v.1 = H.vioBUTTON0 then W.osThreadFlagsSet EVENT_BUTTON v.2 else v.2
    let rest := button_polls W H k v.1 (W.osDelay 100 s1)
    (rest.1, v.1 :: rest.2)

/-! ## Specification of the button handler, in the words of the design -/

/-- The calls of the accelerometer half of the button handler when the status
read is `a`, the recorder identifier is `recId` and `sdsRecOpen` returned `h`:
inactive, clear, open the recorder (when compiled in), enable; active, disable,
close the recorder (when compiled in). -/
def toggle_accelerometer_calls (R : Bool) (a recId h : Nat) : List Call :=
  Call.sensorGetStatus Sensor.accelerometer a ::
    (if a = 0 then
      [Call.sdsClear Sensor.accelerometer] ++
        (if R then [Call.sdsRecOpen "Accelerometer" REC_BUF_SIZE_ACCELEROMETER
          REC_IO_THRESHOLD_ACCELEROMETER h] else []) ++
        [Call.sensorEnable Sensor.accelerometer, Call.printf "Accelerometer enabled\r\n" []]
    else
      [Call.sensorDisable Sensor.accelerometer] ++
        (if R then [Call.sdsRecClose recId] else []) ++
        [Call.printf "Accelerometer disabled\r\n" []])

/-- The calls of the temperature half of the button handler, as for the
accelerometer. -/
def toggle_temperatureSensor_calls (R : Bool) (a recId h : Nat) : List Call :=
  Call.sensorGetStatus Sensor.temperatureSensor a ::
    (if a = 0 then
      [Call.sdsClear Sensor.temperatureSensor] ++
        (if R then [Call.sdsRecOpen "Temperature" REC_BUF_SIZE_TEMPERATURE_SENSOR
          REC_IO_THRESHOLD_TEMPERATURE_SENSOR h] else []) ++
        [Call.sensorEnable Sensor.temperatureSensor,
          Call.printf "Temperature sensor enabled\r\n" []]
    else
      [Call.sensorDisable Sensor.temperatureSensor] ++
        (if R then [Call.sdsRecClose recId] else []) ++
        [Call.printf "Temperature sensor disabled\r\n" []])

/-- The recorder identifier after a toggle: unchanged without the recorder,
otherwise the handle returned by `sdsRecOpen` on activation and `NULL` on
deactivation. -/
def toggled_recId (R : Bool) (a recId h : Nat) : Nat :=
  if R then (if a = 0 then h else NULL) else recId

section toggle_spec

variable {σ : Type} (W : World σ)

/-- The handle `sdsRecOpen` returns when the accelerometer toggle, started in
state `s`, opens the recorder: the stream buffer has been cleared before. -/
def toggle_accelerometer_handle (s : σ) : Nat :=
  (W.sdsRecOpen "Accelerometer" REC_BUF_SIZE_ACCELEROMETER REC_IO_THRESHOLD_ACCELEROMETER
    (W.sdsClear Sensor.accelerometer (W.sensorGetStatus Sensor.accelerometer s).2)).1

/-- The environment state after the accelerometer toggle started in state `s`:
for status 0 after clear, recorder open (when compiled in), enable and the
"enabled" line; otherwise after disable, recorder close (when compiled in) and
the "disabled" line. -/
def toggle_accelerometer_state (R : Bool) (recId : Nat) (s : σ) : σ :=
  if (W.sensorGetStatus Sensor.accelerometer s).1 = 0 then
    W.printf "Accelerometer enabled\r\n" [] (W.sensorEnable Sensor.accelerometer
      (if R then
        (W.sdsRecOpen "Accelerometer" REC_BUF_SIZE_ACCELEROMETER REC_IO_THRESHOLD_ACCELEROMETER
          (W.sdsClear Sensor.accelerometer (W.sensorGetStatus Sensor.accelerometer s).2)).2
      else W.sdsClear Sensor.accelerometer (W.sensorGetStatus Sensor.accelerometer s).2))
  else
    W.printf "Accelerometer disabled\r\n" []
      (if R then
        W.sdsRecClose recId
          (W.sensorDisable Sensor.accelerometer (W.sensorGetStatus Sensor.accelerometer s).2)
      else W.sensorDisable Sensor.accelerometer (W.sensorGetStatus Sensor.accelerometer s).2)

/-- The handle `sdsRecOpen` returns when the temperature toggle, started in
state `s`, opens the recorder. -/
def toggle_temperatureSensor_handle (s : σ) : Nat :=
  (W.sdsRecOpen "Temperature" REC_BUF_SIZE_TEMPERATURE_SENSOR
    REC_IO_THRESHOLD_TEMPERATURE_SENSOR
    (W.sdsClear Sensor.temperatureSensor (W.sensorGetStatus Sensor.temperatureSensor s).2)).1

/-- The environment state after the temperature toggle started in state `s`, as
for the accelerometer. -/
def toggle_temperatureSensor_state (R : Bool) (recId : Nat) (s : σ) : σ :=
  if (W.sensorGetStatus Sensor.temperatureSensor s).1 = 0 then
    W.printf "Temperature sensor enabled\r\n" [] (W.sensorEnable Sensor.temperatureSensor
      (if R then
        (W.sdsRecOpen "Temperature" REC_BUF_SIZE_TEMPERATURE_SENSOR
          REC_IO_THRESHOLD_TEMPERATURE_SENSOR
          (W.sdsClear Sensor.temperatureSensor
            (W.sensorGetStatus Sensor.temperatureSensor s).2)).2
      else W.sdsClear Sensor.temperatureSensor
        (W.sensorGetStatus Sensor.temperatureSensor s).2))
  else
    W.printf "Temperature sensor disabled\r\n" []
      (if R then
        W.sdsRecClose recId
          (W.sensorDisable Sensor.temperatureSensor
            (W.sensorGetStatus Sensor.temperatureSensor s).2)
      else W.sensorDisable Sensor.temperatureSensor
        (W.sensorGetStatus Sensor.temperatureSensor s).2)

/-- The outcome of the button handler started in state `s` with variables `st`:
the "Button pressed" line, then the accelerometer toggle decided by the status
the driver returns then, then the temperature toggle decided by the status the
driver returns after the accelerometer toggle. -/
def button_event_spec (R : Bool) (st : DemoState) (s : σ) : DemoState × σ × List Call :=
  let s0 := W.printf "Button pressed\r\n" [] s
  let sA := toggle_accelerometer_state W R st.recId_accelerometer s0
  ({ st with
      recId_accelerometer := toggled_recId R (W.sensorGetStatus Sensor.accelerometer s0).1
        st.recId_accelerometer (toggle_accelerometer_handle W s0),
      recId_temperatureSensor :=
        toggled_recId R (W.sensorGetStatus Sensor.temperatureSensor sA).1
          st.recId_temperatureSensor (toggle_temperatureSensor_handle W sA) },
    toggle_temperatureSensor_state W R st.recId_temperatureSensor sA,
    Call.printf "Button pressed\r\n" [] ::
      (toggle_accelerometer_calls R (W.sensorGetStatus Sensor.accelerometer s0).1
          st.recId_accelerometer (toggle_accelerometer_handle W s0) ++
        toggle_temperatureSensor_calls R (W.sensorGetStatus Sensor.temperatureSensor sA).1
          st.recId_temperatureSensor (toggle_temperatureSensor_handle W sA)))

end toggle_spec

/-- The recorder identifier of channel `id`. -/
def DemoState.recId (st : DemoState) : Sensor → Nat
  | Sensor.accelerometer => st.recId_accelerometer
  | Sensor.temperatureSensor => st.recId_temperatureSensor

/-- The calls of one pass of the accelerometer read loop in which `sdsRead`
returned `num` and left `buf` in the record buffer: the read of one record and,
when a whole record was returned, its report. -/
def accelerometer_record_calls (cfg : sensorConfig_t) (num : Nat) (buf : List Nat) :
    List Call :=
  Call.sdsRead Sensor.accelerometer cfg.sample_size num buf ::
    (if num = cfg.sample_size then
      [Call.printf "%s: x=%i, y=%i, z=%i\r\n"
        [PrintfArg.str cfg.name, PrintfArg.int (data_u16 buf 0),
         PrintfArg.int (data_u16 buf 1), PrintfArg.int (data_u16 buf 2)]]
    else [])

/-- The calls of one pass of the temperature read loop, as for the
accelerometer. -/
def temperatureSensor_record_calls (cfg : sensorConfig_t) (num : Nat) (buf : List Nat) :
    List Call :=
  Call.sdsRead Sensor.temperatureSensor cfg.sample_size num buf ::
    (if num = cfg.sample_size then
      [Call.printf "%s: value=%f\r\n" [PrintfArg.str cfg.name, PrintfArg.float32 (data_f buf)]]
    else [])

/-- The calls of consecutive passes of a read loop, given what each read
returned. -/
def reads_calls (f : Nat → List Nat → List Call) : List (Nat × List Nat) → List Call
  | [] => []
  | r :: rs => f r.1 r.2 ++ reads_calls f rs

/-- What `n` consecutive reads of one accelerometer record return in environment
`W` from state `s`: each result with the contents of the record buffer after
the read, and the buffer and state at the end.  The bytes a read stores replace
the start of the record buffer; after a read that returned a whole record the
environment sees its report; the next read follows whatever the read
returned. -/
def accelerometer_reads {σ : Type} (W : World σ) (cfg : sensorConfig_t) :
    Nat → List Nat → σ → List Nat × σ × List (Nat × List Nat)
  | 0, buf, s => (buf, s, [])
  | n + 1, buf, s =>
    let rd := W.sdsRead Sensor.accelerometer cfg.sample_size s
    let buf1 := rd.1.2 ++ buf.drop rd.1.2.length
    let s1 := if rd.1.1 = cfg.sample_size then
        W.printf "%s: x=%i, y=%i, z=%i\r\n"
          [PrintfArg.str cfg.name, PrintfArg.int (data_u16 buf1 0),
           PrintfArg.int (data_u16 buf1 1), PrintfArg.int (data_u16 buf1 2)] rd.2
      else rd.2
    let rest := accelerometer_reads W cfg n buf1 s1
    (rest.1, rest.2.1, (rd.1.1, buf1) :: rest.2.2)

/-- What `n` consecutive reads of one temperature record return in environment
`W` from state `s`, as for the accelerometer. -/
def temperatureSensor_reads {σ : Type} (W : World σ) (cfg : sensorConfig_t) :
    Nat → List Nat → σ → List Nat × σ × List (Nat × List Nat)
  | 0, buf, s => (buf, s, [])
  | n + 1, buf, s =>
    let rd := W.sdsRead Sensor.temperatureSensor cfg.sample_size s
    let buf1 := rd.1.2 ++ buf.drop rd.1.2.length
    let s1 := if rd.1.1 = cfg.sample_size then
        W.printf "%s: value=%f\r\n"
          [PrintfArg.str cfg.name, PrintfArg.float32 (data_f buf1)] rd.2
      else rd.2
    let rest := temperatureSensor_reads W cfg n buf1 s1
    (rest.1, rest.2.1, (rd.1.1, buf1) :: rest.2.2)

/-- The contract of `sdsRead` assumed where a read loop is shown to be defined:
a read stores at most the number of bytes requested. -/
def StoresAtMostRequested {σ : Type} (W : World σ) : Prop :=
  ∀ id n s, (W.sdsRead id n s).1.2.length ≤ n

/-- The 16-bit two's complement value of the little-endian byte pair `lo`, `hi`. -/
def int16_le (lo hi : Nat) : Int :=
  if lo + 256 * hi < 32768 then Int.ofNat (lo + 256 * hi)
  else Int.ofNat (lo + 256 * hi) - 65536

/-! ## Specification of a wake cycle, in the words of the design -/

section wake_spec

variable {σ : Type} (W : World σ)

/-- The control part of a wake cycle on flags `flags`: the button handler when
the control bit is set, nothing otherwise. -/
def button_stage_spec (R : Bool) (flags : Nat) (st : DemoState) (s : σ) :
    DemoState × σ × List Call :=
  if flags &&& EVENT_BUTTON ≠ 0 then button_event_spec W R st s else (st, s, [])

/-- The accelerometer part of a wake cycle on flags `flags`: the
`SDS_THRESHOLD_ACCELEROMETER / sample_size` reads with their reports when the
accelerometer data bit is set, nothing otherwise. -/
def accelerometer_stage_spec (cfg : sensorConfig_t) (flags : Nat) (buf : List Nat) (s : σ) :
    List Nat × σ × List Call :=
  if flags &&& EVENT_DATA_ACCELEROMETER ≠ 0 then
    ((accelerometer_reads W cfg (SDS_THRESHOLD_ACCELEROMETER / cfg.sample_size) buf s).1,
      (accelerometer_reads W cfg (SDS_THRESHOLD_ACCELEROMETER / cfg.sample_size) buf s).2.1,
      reads_calls (accelerometer_record_calls cfg)
        (accelerometer_reads W cfg (SDS_THRESHOLD_ACCELEROMETER / cfg.sample_size) buf s).2.2)
  else (buf, s, [])

/-- The temperature part of a wake cycle on flags `flags`: the
`SDS_THRESHOLD_TEMPERATURE_SENSOR / sample_size` reads with their reports when
the temperature data bit is set, nothing otherwise. -/
def temperatureSensor_stage_spec (cfg : sensorConfig_t) (flags : Nat) (buf : List Nat)
    (s : σ) : List Nat × σ × List Call :=
  if flags &&& EVENT_DATA_TEMPERATURE_SENSOR ≠ 0 then
    ((temperatureSensor_reads W cfg
        (SDS_THRESHOLD_TEMPERATURE_SENSOR / cfg.sample_size) buf s).1,
      (temperatureSensor_reads W cfg
        (SDS_THRESHOLD_TEMPERATURE_SENSOR / cfg.sample_size) buf s).2.1,
      reads_calls (temperatureSensor_record_calls cfg)
        (temperatureSensor_reads W cfg
          (SDS_THRESHOLD_TEMPERATURE_SENSOR / cfg.sample_size) buf s).2.2)
  else (buf, s, [])

end wake_spec

/-! ## A concrete environment, for instantiating the properties -/

/-- State of the concrete environment: the drivers' active flags, the kernel
tick, the pending thread flags, the future button levels and the bytes held by
the stream buffer. -/
structure Sim where
  accelerometer_active : Bool
  temperatureSensor_active : Bool
  tick : Nat
  flags : Nat
  levels : List Nat
  stream : List Nat
  deriving DecidableEq, Repr

def Sim.active (s : Sim) : Sensor → Bool
  | Sensor.accelerometer => s.accelerometer_active
  | Sensor.temperatureSensor => s.temperatureSensor_active

def Sim.setActive (s : Sim) (id : Sensor) (b : Bool) : Sim :=
  match id with
  | Sensor.accelerometer => { s with accelerometer_active := b }
  | Sensor.temperatureSensor => { s with temperatureSensor_active := b }

/-- A concrete environment: the driver delivers every sample requested, as bytes
`0xFF`; the stream buffer accepts every write and serves whole reads only; the
recorder returns `rec_ret` as the byte count of every write. -/
def simWorld (rec_ret : Nat) : World Sim where
  osKernelGetTickCount s := (s.tick, s)
  osDelayUntil t s := { s with tick := t }
  osDelay t s := { s with tick := u32 (s.tick + t) }
  osThreadFlagsSet f s := { s with flags := s.flags ||| f }
  osThreadFlagsWait _ _ _ s := (s.flags, { s with flags := 0 })
  vioGetSignal _ s := (s.levels.headD 0, { s with levels := s.levels.tail })
  sensorGetStatus id s := (if s.active id then 1 else 0, s)
  sensorEnable id s := s.setActive id true
  sensorDisable id s := s.setActive id false
  sensorReadSamples _ num _ buf_size s := ((num, List.replicate buf_size 255), s)
  sdsWrite _ buf n s := (n, { s with stream := s.stream ++ buf.take n })
  sdsRead _ n s :=
    if n ≤ s.stream.length then
      ((n, s.stream.take n), { s with stream := s.stream.drop n })
    else ((0, []), s)
  sdsClear _ s := { s with stream := [] }
  sdsRecOpen _ _ _ s := (1, s)
  sdsRecWrite _ _ _ _ s := (rec_ret, s)
  sdsRecClose _ s := s
  printf _ _ s := s

/-- The header constants of the CMSIS packs the demo is built with. -/
def simHeaders : Headers where
  vioBUTTON0 := 1
  osFlagsError := 0x80000000
  osFlagsWaitAny := 0
  osWaitForever := 0xFFFFFFFF
  SDS_EVENT_DATA_HIGH := 2
  SDS_REC_EVENT_IO_ERROR := 1

/-- The configuration of the demo: 6-byte accelerometer samples, 4-byte
temperature samples, both recorders open. -/
def simEnv : SamplerEnv where
  sensorConfig_accelerometer := { name := "Accelerometer", sample_size := 6 }
  sensorConfig_temperatureSensor := { name := "Temperature", sample_size := 4 }
  recId_accelerometer := 1
  recId_temperatureSensor := 2

/-- An environment state with both channels sampling and an empty stream. -/
def simActive : Sim where
  accelerometer_active := true
  temperatureSensor_active := true
  tick := 0
  flags := 0
  levels := []
  stream := []

/-- An environment state whose stream buffer holds one accelerometer record,
bytes `FF FF 01 00 00 80`. -/
def simRecord : Sim where
  accelerometer_active := true
  temperatureSensor_active := true
  tick := 0
  flags := 0
  levels := []
  stream := [0xFF, 0xFF, 0x01, 0x00, 0x00, 0x80]

/-- An environment state in which the button event and both data events are
pending, both channels are sampling and the stream buffer holds one
accelerometer record, bytes `FF FF 01 00 00 80`. -/
def simWakeRecord : Sim where
  accelerometer_active := true
  temperatureSensor_active := true
  tick := 0
  flags := EVENT_BUTTON ||| EVENT_DATA_ACCELEROMETER ||| EVENT_DATA_TEMPERATURE_SENSOR
  levels := []
  stream := [0xFF, 0xFF, 0x01, 0x00, 0x00, 0x80]

/-- The variables of `demo` while both channels are sampling: both recorders
open, record buffer zeroed. -/
def simDemoRunning : DemoState where
  recId_accelerometer := 1
  recId_temperatureSensor := 2
  buf := List.replicate 8 0

theorem Prog.pure_apply {σ α : Type} (a : α) (s : σ) :
    (pure a : Prog σ α) s = some (a, s, []) := rfl

theorem Prog.bind_apply {σ α β : Type} (m : Prog σ α) (f : α → Prog σ β) (s : σ) :
    (m >>= f) s = match m s with
      | none => none
      | some (a, s1, t1) =>
        match f a s1 with
        | none => none
        | some (b, s2, t2) => some (b, s2, t1 ++ t2) := rfl

theorem Prog.ite_apply {σ α : Type} (c : Prop) [Decidable c] (m1 m2 : Prog σ α) (s : σ) :
    (if c then m1 else m2) s = if c then m1 s else m2 s := by
  split <;> rfl

theorem read_sensors_channel_some {σ : Type} (W : World σ) (R : Bool) (id : Sensor)
    (cfg : sensorConfig_t) (recId ts : Nat) (buf : List Nat) (s : σ)
    (r : List Nat × σ × List Call)
    (h : read_sensors_channel W R id cfg recId ts buf s = some r) :
    ∃ a count rbuf wret rret s1,
      (a ≠ 0 → cfg.sample_size ≠ 0 ∧
        count = (W.sensorReadSamples id (SENSOR_BUF_SIZE / cfg.sample_size) buf
          SENSOR_BUF_SIZE s1).1.1) ∧
      r.2.2 = sampler_block_calls R id cfg recId ts a count rbuf wret rret := by
  unfold read_sensors_channel at h
  simp only [Prog.bind_apply, Prog.pure_apply, Prog.ite_apply, World.call_sensorGetStatus,
    Prog.udiv, World.call_sensorReadSamples, World.call_sdsWrite, World.call_printf,
    World.call_sdsRecWrite] at h
  generalize hst : W.sensorGetStatus id s = st at h
  obtain ⟨a, s1⟩ := st
  by_cases ha : a = 0
  · subst ha
    simp at h
    subst h
    exact ⟨0, 0, [], 0, 0, s1, by simp, by simp [sampler_block_calls]⟩
  · by_cases hs0 : cfg.sample_size = 0
    · simp [ha, hs0] at h
    · simp only [ha, hs0, ne_eq, not_false_eq_true, if_true, if_false] at h
      generalize hrd : W.sensorReadSamples id (SENSOR_BUF_SIZE / cfg.sample_size) buf
        SENSOR_BUF_SIZE s1 = rd at h
      obtain ⟨⟨count, rbuf⟩, s2⟩ := rd
      by_cases hc : count = 0
      · subst hc
        simp at h
        subst h
        exact ⟨a, 0, rbuf, 0, 0, s1, by simp [hs0, hrd], by simp [sampler_block_calls, ha]⟩
      · simp only [hc, ne_eq, not_false_eq_true, if_true, if_false] at h
        generalize hwr : W.sdsWrite id rbuf (u32 (count * cfg.sample_size)) s2 = wr at h
        obtain ⟨wret, s3⟩ := wr
        simp only [] at h
        by_cases hw : wret = u32 (count * cfg.sample_size)
        · cases R
          · simp [hw] at h
            subst h
            exact ⟨a, count, rbuf, wret, 0, s1, by simp [hs0, hrd],
              by simp [sampler_block_calls, ha, hc, hw]⟩
          · simp only [hw, not_true_eq_false, if_true, if_false] at h
            generalize hrw : W.sdsRecWrite recId ts rbuf (u32 (count * cfg.sample_size)) s3 = rw at h
            obtain ⟨rret, s4⟩ := rw
            by_cases hr : rret = u32 (count * cfg.sample_size)
            · simp [hr] at h
              subst h
              exact ⟨a, count, rbuf, wret, rret, s1, by simp [hs0, hrd],
                by simp [sampler_block_calls, ha, hc, hw, hr]⟩
            · simp [hr] at h
              subst h
              exact ⟨a, count, rbuf, wret, rret, s1, by simp [hs0, hrd],
                by simp [sampler_block_calls, ha, hc, hw, hr]⟩
        · cases R
          · simp [hw] at h
            subst h
            exact ⟨a, count, rbuf, wret, 0, s1, by simp [hs0, hrd],
              by simp [sampler_block_calls, ha, hc, hw]⟩
          · simp only [hw, not_false_eq_true, if_true, if_false] at h
            generalize hrw : W.sdsRecWrite recId ts rbuf (u32 (count * cfg.sample_size))
              (W.printf "%s: SDS write failed\r\n" [PrintfArg.str cfg.name] s3) = rw at h
            obtain ⟨rret, s4⟩ := rw
            by_cases hr : rret = u32 (count * cfg.sample_size)
            · simp [hr] at h
              subst h
              exact ⟨a, count, rbuf, wret, rret, s1, by simp [hs0, hrd],
                by simp [sampler_block_calls, ha, hc, hw, hr]⟩
            · simp [hr] at h
              subst h
              exact ⟨a, count, rbuf, wret, rret, s1, by simp [hs0, hrd],
                by simp [sampler_block_calls, ha, hc, hw, hr]⟩

theorem read_sensors_channel_none_iff {σ : Type} (W : World σ) (R : Bool) (id : Sensor)
    (cfg : sensorConfig_t) (recId ts : Nat) (buf : List Nat) (s : σ) :
    read_sensors_channel W R id cfg recId ts buf s = none ↔
      ((W.sensorGetStatus id s).1 ≠ 0 ∧ cfg.sample_size = 0) := by
  unfold read_sensors_channel
  simp only [Prog.bind_apply, Prog.pure_apply, Prog.ite_apply, World.call_sensorGetStatus,
    Prog.udiv, World.call_sensorReadSamples, World.call_sdsWrite, World.call_printf,
    World.call_sdsRecWrite]
  by_cases ha : (W.sensorGetStatus id s).1 = 0
  · simp [ha]
  · by_cases hs0 : cfg.sample_size = 0
    · simp [ha, hs0]
    · simp only [ha, hs0, ne_eq, not_false_eq_true, if_true, if_false, and_false, iff_false]
      split_ifs <;> simp

theorem block_len_le (count s : Nat) (h : count ≤ SENSOR_BUF_SIZE / s) :
    u32 (count * s) = count * s ∧ count * s ≤ SENSOR_BUF_SIZE := by
  have h1 : count * s ≤ SENSOR_BUF_SIZE :=
    le_trans (Nat.mul_le_mul_right s h) (Nat.div_mul_le_self SENSOR_BUF_SIZE s)
  refine ⟨?_, h1⟩
  unfold u32
  apply Nat.mod_eq_of_lt
  have : SENSOR_BUF_SIZE = 6 := rfl
  omega

theorem read_sensors_iteration_some {σ : Type} (W : World σ) (R : Bool) (e : SamplerEnv)
    (ts : Nat) (buf : List Nat) (s : σ) (r : (Nat × List Nat) × σ × List Call)
    (h : read_sensors_iteration W R e (ts, buf) s = some r) :
    ∃ rA rT,
      read_sensors_channel W R Sensor.accelerometer e.sensorConfig_accelerometer
        e.recId_accelerometer ts buf s = some rA ∧
      read_sensors_channel W R Sensor.temperatureSensor e.sensorConfig_temperatureSensor
        e.recId_temperatureSensor ts rA.1 rA.2.1 = some rT ∧
      r = ((u32 (ts + SENSOR_POLLING_INTERVAL), rT.1),
        W.osDelayUntil (u32 (ts + SENSOR_POLLING_INTERVAL)) rT.2.1,
        rA.2.2 ++ rT.2.2 ++ [Call.osDelayUntil (u32 (ts + SENSOR_POLLING_INTERVAL))]) := by
  unfold read_sensors_iteration at h
  simp only [Prog.bind_apply, Prog.pure_apply, World.call_osDelayUntil] at h
  cases hA : read_sensors_channel W R Sensor.accelerometer e.sensorConfig_accelerometer
      e.recId_accelerometer ts buf s with
  | none => simp [hA] at h
  | some rA =>
    obtain ⟨bA, sA, tA⟩ := rA
    simp only [hA] at h
    cases hT : read_sensors_channel W R Sensor.temperatureSensor
        e.sensorConfig_temperatureSensor e.recId_temperatureSensor ts bA sA with
    | none => simp [hT] at h
    | some rT =>
      obtain ⟨bT, sT, tT⟩ := rT
      simp [hT] at h
      exact ⟨_, _, rfl, hT, by rw [← h]; simp⟩

theorem read_sensors_channel_total {σ : Type} (W : World σ) (R : Bool) (id : Sensor)
    (cfg : sensorConfig_t) (recId ts : Nat) (buf : List Nat) (s : σ)
    (hs : 0 < cfg.sample_size) :
    ∃ r, read_sensors_channel W R id cfg recId ts buf s = some r := by
  cases h : read_sensors_channel W R id cfg recId ts buf s with
  | some r => exact ⟨r, rfl⟩
  | none =>
    have := (read_sensors_channel_none_iff W R id cfg recId ts buf s).mp h
    omega

theorem read_sensors_iteration_total {σ : Type} (W : World σ) (R : Bool) (e : SamplerEnv)
    (st : Nat × List Nat) (s : σ)
    (hA : 0 < e.sensorConfig_accelerometer.sample_size)
    (hT : 0 < e.sensorConfig_temperatureSensor.sample_size) :
    ∃ r, read_sensors_iteration W R e st s = some r := by
  obtain ⟨ts, buf⟩ := st
  obtain ⟨rA, hrA⟩ := read_sensors_channel_total W R Sensor.accelerometer
    e.sensorConfig_accelerometer e.recId_accelerometer ts buf s hA
  obtain ⟨rT, hrT⟩ := read_sensors_channel_total W R Sensor.temperatureSensor
    e.sensorConfig_temperatureSensor e.recId_temperatureSensor ts rA.1 rA.2.1 hT
  unfold read_sensors_iteration
  simp [Prog.bind_apply, Prog.pure_apply, World.call_osDelayUntil, hrA, hrT]

theorem sampler_block_calls_blockLen (R : Bool) (id : Sensor) (cfg : sensorConfig_t)
    (recId ts a count : Nat) (rbuf : List Nat) (wret rret : Nat)
    (hc : a ≠ 0 → count ≤ SENSOR_BUF_SIZE / cfg.sample_size) :
    ∀ c ∈ sampler_block_calls R id cfg recId ts a count rbuf wret rret,
      ∀ len, c.blockLen = some len →
        len ≤ SENSOR_BUF_SIZE ∧
        ∃ n, 0 < n ∧ n ≤ SENSOR_BUF_SIZE / cfg.sample_size ∧ len = n * cfg.sample_size := by
  by_cases ha : a = 0
  · simp [sampler_block_calls, ha, Call.blockLen]
  · have hb := block_len_le count cfg.sample_size (hc ha)
    by_cases hc0 : count = 0
    · simp [sampler_block_calls, ha, hc0, Call.blockLen]
    · have hQ : u32 (count * cfg.sample_size) ≤ SENSOR_BUF_SIZE ∧
          ∃ n, 0 < n ∧ n ≤ SENSOR_BUF_SIZE / cfg.sample_size ∧
            u32 (count * cfg.sample_size) = n * cfg.sample_size := by
        rw [hb.1]
        exact ⟨hb.2, count, Nat.pos_of_ne_zero hc0, hc ha, rfl⟩
      by_cases hw : wret = u32 (count * cfg.sample_size) <;>
        by_cases hr : rret = u32 (count * cfg.sample_size) <;> cases R <;>
        simp [sampler_block_calls, ha, hc0, hw, hr, Call.blockLen] <;>
        exact hQ

theorem sampler_block_calls_requested (R : Bool) (id : Sensor) (cfg : sensorConfig_t)
    (recId ts a count : Nat) (rbuf : List Nat) (wret rret : Nat) :
    ∀ c ∈ sampler_block_calls R id cfg recId ts a count rbuf wret rret,
      ∀ n, c.requested = some n → n = SENSOR_BUF_SIZE / cfg.sample_size := by
  by_cases ha : a = 0 <;> by_cases hc0 : count = 0 <;>
    by_cases hw : wret = u32 (count * cfg.sample_size) <;>
    by_cases hr : rret = u32 (count * cfg.sample_size) <;> cases R <;>
    simp [sampler_block_calls, ha, hc0, hw, hr, Call.requested]

/-- C10: for a driver that never returns more samples than requested, a channel
block of `read_sensors` with sample size at least 1 is defined, requests
`SENSOR_BUF_SIZE / sample_size` samples (0 when the sample size exceeds
`SENSOR_BUF_SIZE`), and every block length it hands to the stream-buffer write or
to the recorder write is `count * sample_size` for a count within the request,
hence at most `SENSOR_BUF_SIZE`; the block is undefined exactly when the channel
is active and the sample size is 0. -/
theorem read_sensors_channel_block_bound {σ : Type} (W : World σ) (R : Bool) (id : Sensor)
    (cfg : sensorConfig_t) (recId ts : Nat) (buf : List Nat) (s : σ)
    (hW : ∀ j num b bs s', (W.sensorReadSamples j num b bs s').1.1 ≤ num) :
    (1 ≤ cfg.sample_size →
      ∃ r, read_sensors_channel W R id cfg recId ts buf s = some r ∧
        (∀ c ∈ r.2.2, ∀ len, c.blockLen = some len →
          len ≤ SENSOR_BUF_SIZE ∧
          ∃ n, 0 < n ∧ n ≤ SENSOR_BUF_SIZE / cfg.sample_size ∧ len = n * cfg.sample_size) ∧
        (∀ c ∈ r.2.2, ∀ n, c.requested = some n →
          n = SENSOR_BUF_SIZE / cfg.sample_size ∧ (SENSOR_BUF_SIZE < cfg.sample_size → n = 0))) ∧
    (read_sensors_channel W R id cfg recId ts buf s = none ↔
      ((W.sensorGetStatus id s).1 ≠ 0 ∧ cfg.sample_size = 0)) := by
  refine ⟨fun hs => ?_, read_sensors_channel_none_iff W R id cfg recId ts buf s⟩
  obtain ⟨r, hr⟩ := read_sensors_channel_total W R id cfg recId ts buf s hs
  obtain ⟨a, count, rbuf, wret, rret, s1, h1, h2⟩ :=
    read_sensors_channel_some W R id cfg recId ts buf s r hr
  refine ⟨r, hr, ?_, ?_⟩
  · rw [h2]
    apply sampler_block_calls_blockLen
    intro ha
    rw [(h1 ha).2]
    exact hW _ _ _ _ _
  · rw [h2]
    intro c hc n hn
    have hreq := sampler_block_calls_requested R id cfg recId ts a count rbuf wret rret c hc n hn
    exact ⟨hreq, fun hlt => by rw [hreq]; exact Nat.div_eq_of_lt hlt⟩

theorem read_sensors_channel_block_bound_witness :
    1 ≤ simEnv.sensorConfig_temperatureSensor.sample_size ∧
    ∃ r, read_sensors_channel (simWorld 0) true Sensor.temperatureSensor
        simEnv.sensorConfig_temperatureSensor 2 0 (List.replicate 6 0) simActive = some r ∧
      (∀ c ∈ r.2.2, ∀ len, c.blockLen = some len →
        len ≤ SENSOR_BUF_SIZE ∧
        ∃ n, 0 < n ∧ n ≤ SENSOR_BUF_SIZE / simEnv.sensorConfig_temperatureSensor.sample_size ∧
          len = n * simEnv.sensorConfig_temperatureSensor.sample_size) ∧
      (∀ c ∈ r.2.2, ∀ n, c.requested = some n →
        n = SENSOR_BUF_SIZE / simEnv.sensorConfig_temperatureSensor.sample_size ∧
        (SENSOR_BUF_SIZE < simEnv.sensorConfig_temperatureSensor.sample_size → n = 0)) :=
  ⟨by decide,
    (read_sensors_channel_block_bound (simWorld 0) true Sensor.temperatureSensor
      simEnv.sensorConfig_temperatureSensor 2 0 (List.replicate 6 0) simActive
      (fun _ _ _ _ _ => Nat.le_refl _)).1 (by decide)⟩

theorem sampler_block_calls_wakeTime (R : Bool) (id : Sensor) (cfg : sensorConfig_t)
    (recId ts a count : Nat) (rbuf : List Nat) (wret rret : Nat) :
    (sampler_block_calls R id cfg recId ts a count rbuf wret rret).filterMap Call.wakeTime = [] ∧
    (sampler_block_calls R id cfg recId ts a count rbuf wret rret).filter
      Call.isOsKernelGetTickCount = [] := by
  by_cases ha : a = 0 <;> by_cases hc0 : count = 0 <;>
    by_cases hw : wret = u32 (count * cfg.sample_size) <;>
    by_cases hr : rret = u32 (count * cfg.sample_size) <;> cases R <;>
    simp [sampler_block_calls, ha, hc0, hw, hr, Call.wakeTime, Call.isOsKernelGetTickCount]

theorem read_sensors_iteration_wakeTime {σ : Type} (W : World σ) (R : Bool) (e : SamplerEnv)
    (ts : Nat) (buf : List Nat) (s : σ) (r : (Nat × List Nat) × σ × List Call)
    (h : read_sensors_iteration W R e (ts, buf) s = some r) :
    r.1.1 = u32 (ts + SENSOR_POLLING_INTERVAL) ∧
    r.2.2.filterMap Call.wakeTime = [u32 (ts + SENSOR_POLLING_INTERVAL)] ∧
    r.2.2.filter Call.isOsKernelGetTickCount = [] := by
  obtain ⟨rA, rT, hrA, hrT, rfl⟩ := read_sensors_iteration_some W R e ts buf s r h
  obtain ⟨a, count, rbuf, wret, rret, s1, -, h2⟩ :=
    read_sensors_channel_some W R _ _ _ _ _ _ _ hrA
  obtain ⟨a', count', rbuf', wret', rret', s1', -, h2'⟩ :=
    read_sensors_channel_some W R _ _ _ _ _ _ _ hrT
  have hA := sampler_block_calls_wakeTime R Sensor.accelerometer e.sensorConfig_accelerometer
    e.recId_accelerometer ts a count rbuf wret rret
  have hT := sampler_block_calls_wakeTime R Sensor.temperatureSensor
    e.sensorConfig_temperatureSensor e.recId_temperatureSensor ts a' count' rbuf' wret' rret'
  rw [← h2] at hA
  rw [← h2'] at hT
  refine ⟨rfl, ?_, ?_⟩
  · simp [List.filterMap_append, hA.1, hT.1, Call.wakeTime]
  · simp [List.filter_append, hA.2, hT.2, Call.isOsKernelGetTickCount]

theorem wake_time_step (ts i : Nat) :
    (u32 (ts + SENSOR_POLLING_INTERVAL) + (i + 1) * SENSOR_POLLING_INTERVAL) % 2 ^ 32 =
      (ts + (i + 1 + 1) * SENSOR_POLLING_INTERVAL) % 2 ^ 32 := by
  unfold u32 SENSOR_POLLING_INTERVAL
  omega

theorem read_sensors_loop_wakeTimes {σ : Type} (W : World σ) (R : Bool) (e : SamplerEnv) :
    ∀ (k ts : Nat) (buf : List Nat) (s : σ) (r : (Nat × List Nat) × σ × List Call),
      read_sensors_loop W R e k (ts, buf) s = some r →
      r.2.2.filterMap Call.wakeTime =
        (List.range k).map (fun i => (ts + (i + 1) * SENSOR_POLLING_INTERVAL) % 2 ^ 32) ∧
      r.2.2.filter Call.isOsKernelGetTickCount = [] := by
  intro k
  induction k with
  | zero =>
    intro ts buf s r h
    simp [read_sensors_loop, Prog.pure_apply] at h
    subst h
    simp
  | succ k ih =>
    intro ts buf s r h
    simp only [read_sensors_loop, Prog.bind_apply] at h
    cases h1 : read_sensors_iteration W R e (ts, buf) s with
    | none => simp [h1] at h
    | some r1 =>
      obtain ⟨⟨ts1, buf1⟩, s1, t1⟩ := r1
      simp only [h1] at h
      cases h2 : read_sensors_loop W R e k (ts1, buf1) s1 with
      | none => simp [h2] at h
      | some r2 =>
        obtain ⟨st2, s2, t2⟩ := r2
        simp [h2] at h
        subst h
        obtain ⟨hts, hw1, hk1⟩ := read_sensors_iteration_wakeTime W R e ts buf s _ h1
        obtain ⟨hw2, hk2⟩ := ih ts1 buf1 s1 _ h2
        simp only at hts hw1 hk1 hw2 hk2
        subst hts
        refine ⟨?_, ?_⟩
        · simp only [List.filterMap_append, hw1, hw2, List.range_succ_eq_map, List.map_cons,
            List.map_map, List.singleton_append]
          congr 1
          apply List.map_congr_left
          intro i _
          simp only [Function.comp]
          exact wake_time_step ts i
        · simp [List.filter_append, hk1, hk2]

theorem read_sensors_loop_total {σ : Type} (W : World σ) (R : Bool) (e : SamplerEnv)
    (hA : 0 < e.sensorConfig_accelerometer.sample_size)
    (hT : 0 < e.sensorConfig_temperatureSensor.sample_size) :
    ∀ (k : Nat) (st : Nat × List Nat) (s : σ),
      ∃ r, read_sensors_loop W R e k st s = some r := by
  intro k
  induction k with
  | zero =>
    intro st s
    exact ⟨_, rfl⟩
  | succ k ih =>
    intro st s
    obtain ⟨r1, h1⟩ := read_sensors_iteration_total W R e st s hA hT
    obtain ⟨r2, h2⟩ := ih r1.1 r1.2.1
    refine ⟨(r2.1, r2.2.1, r1.2.2 ++ r2.2.2), ?_⟩
    simp only [read_sensors_loop, Prog.bind_apply, h1, h2]

/-- C6: `read_sensors` reads the tick count once, before the loop; whatever the
environment returns during the first `k` iterations, the wake times passed to
`osDelayUntil` are `(t0 + 1 * SENSOR_POLLING_INTERVAL) mod 2^32`, ...,
`(t0 + k * SENSOR_POLLING_INTERVAL) mod 2^32`, in this order, where `t0` is that
tick count; the run is defined for positive sample sizes. -/
theorem read_sensors_absolute_deadlines {σ : Type} (W : World σ) (R : Bool) (e : SamplerEnv)
    (buf : List Nat) (k : Nat) (s : σ) :
    (0 < e.sensorConfig_accelerometer.sample_size →
      0 < e.sensorConfig_temperatureSensor.sample_size →
      ∃ r, read_sensors W R e buf k s = some r) ∧
    (∀ r, read_sensors W R e buf k s = some r →
      r.2.2.filterMap Call.wakeTime =
        (List.range k).map (fun i =>
          ((W.osKernelGetTickCount s).1 + (i + 1) * SENSOR_POLLING_INTERVAL) % 2 ^ 32) ∧
      r.2.2.filter Call.isOsKernelGetTickCount =
        [Call.osKernelGetTickCount (W.osKernelGetTickCount s).1]) := by
  constructor
  · intro hA hT
    obtain ⟨r, hr⟩ := read_sensors_loop_total W R e hA hT k
      ((W.osKernelGetTickCount s).1, buf) (W.osKernelGetTickCount s).2
    refine ⟨(r.1, r.2.1, [Call.osKernelGetTickCount (W.osKernelGetTickCount s).1] ++ r.2.2), ?_⟩
    simp only [read_sensors, Prog.bind_apply, World.call_osKernelGetTickCount, hr]
  · intro r h
    simp only [read_sensors, Prog.bind_apply, World.call_osKernelGetTickCount] at h
    cases h2 : read_sensors_loop W R e k ((W.osKernelGetTickCount s).1, buf)
        (W.osKernelGetTickCount s).2 with
    | none => simp [h2] at h
    | some r2 =>
      simp [h2] at h
      subst h
      obtain ⟨hw, hk⟩ := read_sensors_loop_wakeTimes W R e k _ buf _ r2 h2
      simp [List.filterMap_append, List.filter_append, hw, hk, Call.wakeTime,
        Call.isOsKernelGetTickCount]

theorem read_sensors_absolute_deadlines_witness :
    ∃ r, read_sensors (simWorld 0) true simEnv (List.replicate 6 0) 3 simActive = some r ∧
      r.2.2.filterMap Call.wakeTime =
        (List.range 3).map (fun i =>
          (((simWorld 0).osKernelGetTickCount simActive).1 +
            (i + 1) * SENSOR_POLLING_INTERVAL) % 2 ^ 32) ∧
      r.2.2.filter Call.isOsKernelGetTickCount =
        [Call.osKernelGetTickCount ((simWorld 0).osKernelGetTickCount simActive).1] := by
  have h := read_sensors_absolute_deadlines (simWorld 0) true simEnv (List.replicate 6 0) 3
    simActive
  obtain ⟨r, hr⟩ := h.1 (by decide) (by decide)
  exact ⟨r, hr, h.2 r hr⟩

theorem button_poll_calls_observed (H : Headers) (v : Nat) (raise : Bool) :
    (button_poll_calls H v raise).filterMap Call.polledLevel = [v] ∧
    (button_poll_calls H v raise).filter Call.isOsThreadFlagsSet =
      (if raise then [Call.osThreadFlagsSet EVENT_BUTTON] else []) := by
  cases raise <;> simp [button_poll_calls, Call.polledLevel, Call.isOsThreadFlagsSet]

theorem toggle_calls_clear_discipline (R : Bool) (aA rA hA aT rT hT : Nat) (id : Sensor)
    (pre post : List Call)
    (h : Call.printf "Button pressed\r\n" [] ::
        (toggle_accelerometer_calls R aA rA hA ++ toggle_temperatureSensor_calls R aT rT hT) =
      pre ++ Call.sdsClear id :: post) :
    pre.getLast? = some (Call.sensorGetStatus id 0) ∧
      Call.sensorEnable id ∈ post ∧ Call.sensorEnable id ∉ pre := by
  by_cases h1 : aA = 0 <;> by_cases h2 : aT = 0 <;> cases R <;>
    simp [toggle_accelerometer_calls, toggle_temperatureSensor_calls, h1, h2,
      List.cons_eq_append_iff] at h <;>
    aesop

theorem reads_calls_accelerometer_counts (cfg : sensorConfig_t) :
    ∀ rs : List (Nat × List Nat),
      ((reads_calls (accelerometer_record_calls cfg) rs).filter Call.isSdsRead).length =
        rs.length ∧
      ((reads_calls (accelerometer_record_calls cfg) rs).filter Call.isPrintf).length =
        rs.countP (fun x => decide (x.1 = cfg.sample_size)) := by
  intro rs
  induction rs with
  | nil => simp [reads_calls]
  | cons x rs ih =>
    obtain ⟨num, rbuf⟩ := x
    by_cases hn : num = cfg.sample_size <;>
      simp [reads_calls, accelerometer_record_calls, List.filter_append, hn, ih.1, ih.2,
        Call.isSdsRead, Call.isPrintf, List.countP_cons]

theorem reads_calls_temperatureSensor_counts (cfg : sensorConfig_t) :
    ∀ rs : List (Nat × List Nat),
      ((reads_calls (temperatureSensor_record_calls cfg) rs).filter Call.isSdsRead).length =
        rs.length ∧
      ((reads_calls (temperatureSensor_record_calls cfg) rs).filter Call.isPrintf).length =
        rs.countP (fun x => decide (x.1 = cfg.sample_size)) := by
  intro rs
  induction rs with
  | nil => simp [reads_calls]
  | cons x rs ih =>
    obtain ⟨num, rbuf⟩ := x
    by_cases hn : num = cfg.sample_size <;>
      simp [reads_calls, temperatureSensor_record_calls, List.filter_append, hn, ih.1, ih.2,
        Call.isSdsRead, Call.isPrintf, List.countP_cons]

set_option maxRecDepth 100000 in
/-- C5, the claim as stated fails: on an empty stream buffer every `sdsRead` of
the accelerometer handler returns 0, and the handler still makes all
`624 / 6 = 104` read attempts. -/
theorem demo_accelerometer_event_reads_after_empty_read :
    (demo_accelerometer_event (simWorld 0) simEnv.sensorConfig_accelerometer
        (List.replicate 8 0) simActive).map (fun r => r.2.2) =
      some (List.replicate 104 (Call.sdsRead Sensor.accelerometer 6 0 (List.replicate 8 0))) := by
  rfl

/-- C9, the claim as stated fails: for the record `FF FF 01 00 00 80` the loop
reports x = 65535 and z = 32768, where the 16-bit signed reading of the same
byte pairs is -1 and -32768. -/
theorem demo_accelerometer_loop_reports_65535 :
    (demo_accelerometer_loop (simWorld 0) simEnv.sensorConfig_accelerometer 1
        (List.replicate 8 0) simRecord).map (fun r => r.2.2) =
      some [Call.sdsRead Sensor.accelerometer 6 6 [0xFF, 0xFF, 0x01, 0x00, 0x00, 0x80, 0, 0],
        Call.printf "%s: x=%i, y=%i, z=%i\r\n"
          [PrintfArg.str "Accelerometer", PrintfArg.int 65535, PrintfArg.int 1,
            PrintfArg.int 32768]] ∧
    int16_le 0xFF 0xFF = -1 ∧ int16_le 0x00 0x80 = -32768 := by
  refine ⟨by rfl, by decide, by decide⟩

theorem toggle_calls_filters (R : Bool) (aA rA hA aT rT hT : Nat) (id : Sensor) :
    ((Call.printf "Button pressed\r\n" [] ::
      (toggle_accelerometer_calls R aA rA hA ++ toggle_temperatureSensor_calls R aT rT hT)).filter
        (Call.togglesSensor id)).length = 1 ∧
    (Call.printf "Button pressed\r\n" [] ::
      (toggle_accelerometer_calls R aA rA hA ++ toggle_temperatureSensor_calls R aT rT hT)).filter
        (Call.readsStream id) = [] ∧
    (Call.printf "Button pressed\r\n" [] ::
      (toggle_accelerometer_calls R aA rA hA ++ toggle_temperatureSensor_calls R aT rT hT)).filter
        Call.isOsThreadFlagsWait = [] := by
  cases id <;> by_cases h1 : aA = 0 <;> by_cases h2 : aT = 0 <;> cases R <;>
    simp [toggle_accelerometer_calls, toggle_temperatureSensor_calls, h1, h2,
      Call.togglesSensor, Call.readsStream, Call.isOsThreadFlagsWait]

theorem reads_calls_accelerometer_filters (cfg : sensorConfig_t) :
    ∀ rs : List (Nat × List Nat),
      (∀ id, (reads_calls (accelerometer_record_calls cfg) rs).filter
        (Call.togglesSensor id) = []) ∧
      ((reads_calls (accelerometer_record_calls cfg) rs).filter
        (Call.readsStream Sensor.accelerometer)).length = rs.length ∧
      (reads_calls (accelerometer_record_calls cfg) rs).filter
        (Call.readsStream Sensor.temperatureSensor) = [] ∧
      (reads_calls (accelerometer_record_calls cfg) rs).filter Call.isOsThreadFlagsWait = [] := by
  intro rs
  induction rs with
  | nil => simp [reads_calls]
  | cons x rs ih =>
    obtain ⟨num, rbuf⟩ := x
    obtain ⟨ih1, ih2, ih3, ih4⟩ := ih
    by_cases hn : num = cfg.sample_size <;>
      simp [reads_calls, accelerometer_record_calls, List.filter_append, hn, ih1, ih2, ih3, ih4,
        Call.togglesSensor, Call.readsStream, Call.isOsThreadFlagsWait]

theorem reads_calls_temperatureSensor_filters (cfg : sensorConfig_t) :
    ∀ rs : List (Nat × List Nat),
      (∀ id, (reads_calls (temperatureSensor_record_calls cfg) rs).filter
        (Call.togglesSensor id) = []) ∧
      ((reads_calls (temperatureSensor_record_calls cfg) rs).filter
        (Call.readsStream Sensor.temperatureSensor)).length = rs.length ∧
      (reads_calls (temperatureSensor_record_calls cfg) rs).filter
        (Call.readsStream Sensor.accelerometer) = [] ∧
      (reads_calls (temperatureSensor_record_calls cfg) rs).filter
        Call.isOsThreadFlagsWait = [] := by
  intro rs
  induction rs with
  | nil => simp [reads_calls]
  | cons x rs ih =>
    obtain ⟨num, rbuf⟩ := x
    obtain ⟨ih1, ih2, ih3, ih4⟩ := ih
    by_cases hn : num = cfg.sample_size <;>
      simp [reads_calls, temperatureSensor_record_calls, List.filter_append, hn, ih1, ih2, ih3,
        ih4, Call.togglesSensor, Call.readsStream, Call.isOsThreadFlagsWait]

theorem demo_toggle_accelerometer_spec {σ : Type} (W : World σ) (R : Bool) (recId : Nat)
    (s : σ) :
    demo_toggle_accelerometer W R recId s =
      some (toggled_recId R (W.sensorGetStatus Sensor.accelerometer s).1 recId
          (toggle_accelerometer_handle W s),
        toggle_accelerometer_state W R recId s,
        toggle_accelerometer_calls R (W.sensorGetStatus Sensor.accelerometer s).1 recId
          (toggle_accelerometer_handle W s)) := by
  unfold demo_toggle_accelerometer toggle_accelerometer_calls toggled_recId
    toggle_accelerometer_state toggle_accelerometer_handle
  simp only [Prog.bind_apply, Prog.pure_apply, Prog.ite_apply, World.call_sensorGetStatus,
    World.call_sdsClear, World.call_sdsRecOpen, World.call_sensorEnable, World.call_printf,
    World.call_sensorDisable, World.call_sdsRecClose]
  generalize W.sensorGetStatus Sensor.accelerometer s = st
  obtain ⟨a, s0⟩ := st
  by_cases ha : a = 0
  · subst ha
    cases R <;> simp
  · cases R <;> simp [ha]

theorem demo_toggle_temperatureSensor_spec {σ : Type} (W : World σ) (R : Bool) (recId : Nat)
    (s : σ) :
    demo_toggle_temperatureSensor W R recId s =
      some (toggled_recId R (W.sensorGetStatus Sensor.temperatureSensor s).1 recId
          (toggle_temperatureSensor_handle W s),
        toggle_temperatureSensor_state W R recId s,
        toggle_temperatureSensor_calls R (W.sensorGetStatus Sensor.temperatureSensor s).1 recId
          (toggle_temperatureSensor_handle W s)) := by
  unfold demo_toggle_temperatureSensor toggle_temperatureSensor_calls toggled_recId
    toggle_temperatureSensor_state toggle_temperatureSensor_handle
  simp only [Prog.bind_apply, Prog.pure_apply, Prog.ite_apply, World.call_sensorGetStatus,
    World.call_sdsClear, World.call_sdsRecOpen, World.call_sensorEnable, World.call_printf,
    World.call_sensorDisable, World.call_sdsRecClose]
  generalize W.sensorGetStatus Sensor.temperatureSensor s = st
  obtain ⟨a, s0⟩ := st
  by_cases ha : a = 0
  · subst ha
    cases R <;> simp
  · cases R <;> simp [ha]

theorem demo_button_event_spec {σ : Type} (W : World σ) (R : Bool) (st : DemoState) (s : σ) :
    demo_button_event W R st s = some (button_event_spec W R st s) := by
  unfold demo_button_event button_event_spec
  simp only [Prog.bind_apply, Prog.pure_apply, World.call_printf,
    demo_toggle_accelerometer_spec, demo_toggle_temperatureSensor_spec]
  simp

/-- C2: in every environment the button handler is defined, and its outcome is
the "Button pressed" line, then the accelerometer toggle decided by the status
`aA` the driver returns at that moment, then the temperature toggle decided by
the status `aT` the driver returns after the accelerometer toggle: for status 0
the calls clear, recorder open (when compiled in), enable; otherwise disable,
recorder close (when compiled in), after which the identifier is `NULL`.  Hence
every `sdsClear` of a channel comes right after a status read of that channel
that returned 0, and before the only `sensorEnable` of that channel. -/
theorem demo_button_event_order {σ : Type} (W : World σ) (R : Bool) (st : DemoState) (s : σ) :
    let s0 := W.printf "Button pressed\r\n" [] s
    let aA := (W.sensorGetStatus Sensor.accelerometer s0).1
    let hA := toggle_accelerometer_handle W s0
    let sA := toggle_accelerometer_state W R st.recId_accelerometer s0
    let aT := (W.sensorGetStatus Sensor.temperatureSensor sA).1
    let hT := toggle_temperatureSensor_handle W sA
    let sT := toggle_temperatureSensor_state W R st.recId_temperatureSensor sA
    let calls := Call.printf "Button pressed\r\n" [] ::
      (toggle_accelerometer_calls R aA st.recId_accelerometer hA ++
        toggle_temperatureSensor_calls R aT st.recId_temperatureSensor hT)
    demo_button_event W R st s =
      some ({ st with
          recId_accelerometer := toggled_recId R aA st.recId_accelerometer hA,
          recId_temperatureSensor := toggled_recId R aT st.recId_temperatureSensor hT },
        sT, calls) ∧
    (∀ id pre post, calls = pre ++ Call.sdsClear id :: post →
      pre.getLast? = some (Call.sensorGetStatus id 0) ∧
      Call.sensorEnable id ∈ post ∧ Call.sensorEnable id ∉ pre) := by
  intro s0 aA hA sA aT hT sT calls
  refine ⟨demo_button_event_spec W R st s, ?_⟩
  intro id pre post h
  exact toggle_calls_clear_discipline R _ _ hA _ _ hT id pre post h

theorem button_iteration_spec {σ : Type} (W : World σ) (H : Headers) (value_last : Nat)
    (s : σ) :
    button_iteration W H value_last s =
      some ((W.vioGetSignal H.vioBUTTON0 s).1,
        W.osDelay 100
          (if (W.vioGetSignal H.vioBUTTON0 s).1 ≠ value_last ∧
              (W.vioGetSignal H.vioBUTTON0 s).1 = H.vioBUTTON0 then
            W.osThreadFlagsSet EVENT_BUTTON (W.vioGetSignal H.vioBUTTON0 s).2
          else (W.vioGetSignal H.vioBUTTON0 s).2),
        button_poll_calls H (W.vioGetSignal H.vioBUTTON0 s).1
          (decide ((W.vioGetSignal H.vioBUTTON0 s).1 ≠ value_last ∧
            (W.vioGetSignal H.vioBUTTON0 s).1 = H.vioBUTTON0))) := by
  unfold button_iteration button_poll_calls
  simp only [Prog.bind_apply, Prog.pure_apply, Prog.ite_apply, World.call_vioGetSignal,
    World.call_osThreadFlagsSet, World.call_osDelay]
  generalize W.vioGetSignal H.vioBUTTON0 s = r
  obtain ⟨v, s0⟩ := r
  by_cases h1 : v = value_last
  · simp [h1]
  · by_cases h2 : v = H.vioBUTTON0
    · subst h2
      simp [h1]
    · simp [h1, h2]

theorem button_loop_spec {σ : Type} (W : World σ) (H : Headers) :
    ∀ (k value_last : Nat) (s : σ),
      button_loop W H k value_last s =
        some ((button_polls W H k value_last s).2.getLastD value_last,
          (button_polls W H k value_last s).1,
          button_calls H value_last (button_polls W H k value_last s).2) ∧
      (button_polls W H k value_last s).2.length = k ∧
      ((button_calls H value_last (button_polls W H k value_last s).2).filter
          Call.isOsThreadFlagsSet).length =
        (risingEdges H.vioBUTTON0 value_last (button_polls W H k value_last s).2).count true := by
  intro k
  induction k with
  | zero =>
    intro value_last s
    exact ⟨rfl, rfl, by simp [button_polls, button_calls, risingEdges]⟩
  | succ k ih =>
    intro value_last s
    have h1 := button_iteration_spec W H value_last s
    generalize hv : W.vioGetSignal H.vioBUTTON0 s = v at h1
    obtain ⟨ih1, ih2, ih3⟩ := ih v.1
      (W.osDelay 100 (if v.1 ≠ value_last ∧ v.1 = H.vioBUTTON0 then
        W.osThreadFlagsSet EVENT_BUTTON v.2 else v.2))
    have hp : button_polls W H (k + 1) value_last s =
        ((button_polls W H k v.1 (W.osDelay 100 (if v.1 ≠ value_last ∧ v.1 = H.vioBUTTON0 then
            W.osThreadFlagsSet EVENT_BUTTON v.2 else v.2))).1,
          v.1 :: (button_polls W H k v.1 (W.osDelay 100
            (if v.1 ≠ value_last ∧ v.1 = H.vioBUTTON0 then
              W.osThreadFlagsSet EVENT_BUTTON v.2 else v.2))).2) := by
      simp only [button_polls, hv]
    rw [hp]
    refine ⟨?_, by simp [ih2], ?_⟩
    · simp only [button_loop, Prog.bind_apply, h1, ih1, button_calls, List.getLastD_cons]
    · have hf := (button_poll_calls_observed H v.1
        (decide (v.1 ≠ value_last ∧ v.1 = H.vioBUTTON0))).2
      simp only [button_calls, risingEdges, List.filter_append, List.length_append, hf, ih3,
        List.count_cons]
      generalize decide (v.1 ≠ value_last ∧ v.1 = H.vioBUTTON0) = b
      cases b <;> simp
      omega

/-- C4: for every environment `W` and every number `k` of polls, `button` is
defined; with `levels` the levels the signal returns to its `k` polls in `W`,
its calls are the `k` polls in which `osThreadFlagsSet(EVENT_BUTTON)` follows
the read exactly when the level differs from the previous level (0 before the
first poll) and equals `vioBUTTON0`; so the number of events raised is the
number of rising transitions of `levels`. -/
theorem button_raises_on_rising_edges {σ : Type} (W : World σ) (H : Headers) (k : Nat) (s : σ) :
    let levels := (button_polls W H k 0 s).2
    button W H k s =
      some (levels.getLastD 0, (button_polls W H k 0 s).1, button_calls H 0 levels) ∧
    levels.length = k ∧
    ((button_calls H 0 levels).filter Call.isOsThreadFlagsSet).length =
      (risingEdges H.vioBUTTON0 0 levels).count true :=
  button_loop_spec W H k 0 s

theorem stored_record_length (data buf : List Nat) (h : data.length ≤ buf.length) :
    (data ++ buf.drop data.length).length = buf.length := by
  simp [List.length_append, List.length_drop]
  omega

theorem demo_accelerometer_loop_spec {σ : Type} (W : World σ) (cfg : sensorConfig_t)
    (hW : StoresAtMostRequested W) (hs : cfg.sample_size ≤ 8) :
    ∀ (n : Nat) (buf : List Nat) (s : σ), buf.length = 8 →
      demo_accelerometer_loop W cfg n buf s =
        some ((accelerometer_reads W cfg n buf s).1, (accelerometer_reads W cfg n buf s).2.1,
          reads_calls (accelerometer_record_calls cfg) (accelerometer_reads W cfg n buf s).2.2) ∧
      (accelerometer_reads W cfg n buf s).2.2.length = n ∧
      (accelerometer_reads W cfg n buf s).1.length = 8 := by
  intro n
  induction n with
  | zero =>
    intro buf s hb
    exact ⟨rfl, rfl, hb⟩
  | succ n ih =>
    intro buf s hb
    have hle : (W.sdsRead Sensor.accelerometer cfg.sample_size s).1.2.length ≤ buf.length := by
      have := hW Sensor.accelerometer cfg.sample_size s
      omega
    have hnot : ¬ buf.length < (W.sdsRead Sensor.accelerometer cfg.sample_size s).1.2.length := by
      omega
    have hb1 := stored_record_length _ buf hle
    simp only [demo_accelerometer_loop, accelerometer_reads, Prog.bind_apply, Prog.pure_apply,
      Prog.ite_apply, World.call_sdsRead, World.call_printf, hnot, if_false]
    generalize hrd : W.sdsRead Sensor.accelerometer cfg.sample_size s = rd at hb1 ⊢
    obtain ⟨⟨num, data⟩, s1⟩ := rd
    simp only at hb1 ⊢
    by_cases hn : num = cfg.sample_size
    · obtain ⟨ih1, ih2, ih3⟩ := ih (data ++ buf.drop data.length)
        (W.printf "%s: x=%i, y=%i, z=%i\r\n"
          [PrintfArg.str cfg.name, PrintfArg.int (data_u16 (data ++ buf.drop data.length) 0),
           PrintfArg.int (data_u16 (data ++ buf.drop data.length) 1),
           PrintfArg.int (data_u16 (data ++ buf.drop data.length) 2)] s1) (hb1.trans hb)
      simp [hn, ih1, ih2, ih3, reads_calls, accelerometer_record_calls]
    · obtain ⟨ih1, ih2, ih3⟩ := ih (data ++ buf.drop data.length) s1 (hb1.trans hb)
      simp [hn, ih1, ih2, ih3, reads_calls, accelerometer_record_calls]

theorem demo_temperatureSensor_loop_spec {σ : Type} (W : World σ) (cfg : sensorConfig_t)
    (hW : StoresAtMostRequested W) (hs : cfg.sample_size ≤ 8) :
    ∀ (n : Nat) (buf : List Nat) (s : σ), buf.length = 8 →
      demo_temperatureSensor_loop W cfg n buf s =
        some ((temperatureSensor_reads W cfg n buf s).1,
          (temperatureSensor_reads W cfg n buf s).2.1,
          reads_calls (temperatureSensor_record_calls cfg)
            (temperatureSensor_reads W cfg n buf s).2.2) ∧
      (temperatureSensor_reads W cfg n buf s).2.2.length = n ∧
      (temperatureSensor_reads W cfg n buf s).1.length = 8 := by
  intro n
  induction n with
  | zero =>
    intro buf s hb
    exact ⟨rfl, rfl, hb⟩
  | succ n ih =>
    intro buf s hb
    have hle : (W.sdsRead Sensor.temperatureSensor cfg.sample_size s).1.2.length ≤
        buf.length := by
      have := hW Sensor.temperatureSensor cfg.sample_size s
      omega
    have hnot : ¬ buf.length <
        (W.sdsRead Sensor.temperatureSensor cfg.sample_size s).1.2.length := by
      omega
    have hb1 := stored_record_length _ buf hle
    simp only [demo_temperatureSensor_loop, temperatureSensor_reads, Prog.bind_apply,
      Prog.pure_apply, Prog.ite_apply, World.call_sdsRead, World.call_printf, hnot, if_false]
    generalize hrd : W.sdsRead Sensor.temperatureSensor cfg.sample_size s = rd at hb1 ⊢
    obtain ⟨⟨num, data⟩, s1⟩ := rd
    simp only at hb1 ⊢
    by_cases hn : num = cfg.sample_size
    · obtain ⟨ih1, ih2, ih3⟩ := ih (data ++ buf.drop data.length)
        (W.printf "%s: value=%f\r\n"
          [PrintfArg.str cfg.name, PrintfArg.float32 (data_f (data ++ buf.drop data.length))]
          s1) (hb1.trans hb)
      simp [hn, ih1, ih2, ih3, reads_calls, temperatureSensor_record_calls]
    · obtain ⟨ih1, ih2, ih3⟩ := ih (data ++ buf.drop data.length) s1 (hb1.trans hb)
      simp [hn, ih1, ih2, ih3, reads_calls, temperatureSensor_record_calls]

theorem demo_accelerometer_event_spec {σ : Type} (W : World σ) (cfg : sensorConfig_t)
    (buf : List Nat) (s : σ) (hW : StoresAtMostRequested W) (hb : buf.length = 8)
    (h0 : 0 < cfg.sample_size) (h8 : cfg.sample_size ≤ 8) :
    demo_accelerometer_event W cfg buf s =
      some ((accelerometer_reads W cfg (SDS_THRESHOLD_ACCELEROMETER / cfg.sample_size) buf s).1,
        (accelerometer_reads W cfg (SDS_THRESHOLD_ACCELEROMETER / cfg.sample_size) buf s).2.1,
        reads_calls (accelerometer_record_calls cfg)
          (accelerometer_reads W cfg (SDS_THRESHOLD_ACCELEROMETER / cfg.sample_size)
            buf s).2.2) := by
  have hs0 : cfg.sample_size ≠ 0 := Nat.pos_iff_ne_zero.mp h0
  have hl := (demo_accelerometer_loop_spec W cfg hW h8
    (SDS_THRESHOLD_ACCELEROMETER / cfg.sample_size) buf s hb).1
  simp [demo_accelerometer_event, Prog.bind_apply, Prog.udiv, hs0, hl]

theorem demo_temperatureSensor_event_spec {σ : Type} (W : World σ) (cfg : sensorConfig_t)
    (buf : List Nat) (s : σ) (hW : StoresAtMostRequested W) (hb : buf.length = 8)
    (h0 : 0 < cfg.sample_size) (h8 : cfg.sample_size ≤ 8) :
    demo_temperatureSensor_event W cfg buf s =
      some ((temperatureSensor_reads W cfg
            (SDS_THRESHOLD_TEMPERATURE_SENSOR / cfg.sample_size) buf s).1,
        (temperatureSensor_reads W cfg
            (SDS_THRESHOLD_TEMPERATURE_SENSOR / cfg.sample_size) buf s).2.1,
        reads_calls (temperatureSensor_record_calls cfg)
          (temperatureSensor_reads W cfg (SDS_THRESHOLD_TEMPERATURE_SENSOR / cfg.sample_size)
            buf s).2.2) := by
  have hs0 : cfg.sample_size ≠ 0 := Nat.pos_iff_ne_zero.mp h0
  have hl := (demo_temperatureSensor_loop_spec W cfg hW h8
    (SDS_THRESHOLD_TEMPERATURE_SENSOR / cfg.sample_size) buf s hb).1
  simp [demo_temperatureSensor_event, Prog.bind_apply, Prog.udiv, hs0, hl]

theorem simWorld_storesAtMostRequested (rec_ret : Nat) :
    StoresAtMostRequested (simWorld rec_ret) := by
  intro id n s
  simp only [simWorld]
  split
  · simp [List.length_take]
  · simp

/-- C5 (amended): for a record buffer of 8 bytes, a stream buffer that stores at
most the bytes requested and a sample size from 1 to 8, the handler of a
channel's data bit is defined and makes exactly `threshold / sample_size` read
attempts of one record (`sample_size` bytes) each, with the results the
environment returns to these reads one after the other, whatever they are (a
read that returns 0 does not end the loop), and prints exactly one report after
each read that returned `sample_size` bytes. -/
theorem demo_data_event_reads_full_bound {σ : Type} (W : World σ) (cfgA cfgT : sensorConfig_t)
    (buf : List Nat) (s : σ) (hW : StoresAtMostRequested W) (hb : buf.length = 8)
    (hA : 0 < cfgA.sample_size) (hA8 : cfgA.sample_size ≤ 8)
    (hT : 0 < cfgT.sample_size) (hT8 : cfgT.sample_size ≤ 8) :
    let rA := accelerometer_reads W cfgA (SDS_THRESHOLD_ACCELEROMETER / cfgA.sample_size) buf s
    let tA := reads_calls (accelerometer_record_calls cfgA) rA.2.2
    let rT := temperatureSensor_reads W cfgT
      (SDS_THRESHOLD_TEMPERATURE_SENSOR / cfgT.sample_size) buf s
    let tT := reads_calls (temperatureSensor_record_calls cfgT) rT.2.2
    (demo_accelerometer_event W cfgA buf s = some (rA.1, rA.2.1, tA) ∧
      rA.2.2.length = SDS_THRESHOLD_ACCELEROMETER / cfgA.sample_size ∧
      (tA.filter Call.isSdsRead).length = SDS_THRESHOLD_ACCELEROMETER / cfgA.sample_size ∧
      (tA.filter Call.isPrintf).length =
        rA.2.2.countP (fun x => decide (x.1 = cfgA.sample_size))) ∧
    (demo_temperatureSensor_event W cfgT buf s = some (rT.1, rT.2.1, tT) ∧
      rT.2.2.length = SDS_THRESHOLD_TEMPERATURE_SENSOR / cfgT.sample_size ∧
      (tT.filter Call.isSdsRead).length =
        SDS_THRESHOLD_TEMPERATURE_SENSOR / cfgT.sample_size ∧
      (tT.filter Call.isPrintf).length =
        rT.2.2.countP (fun x => decide (x.1 = cfgT.sample_size))) := by
  intro rA tA rT tT
  constructor
  · have hl := (demo_accelerometer_loop_spec W cfgA hW hA8
      (SDS_THRESHOLD_ACCELEROMETER / cfgA.sample_size) buf s hb).2.1
    have hc := reads_calls_accelerometer_counts cfgA rA.2.2
    exact ⟨demo_accelerometer_event_spec W cfgA buf s hW hb hA hA8, hl,
      by rw [hc.1]; exact hl, hc.2⟩
  · have hl := (demo_temperatureSensor_loop_spec W cfgT hW hT8
      (SDS_THRESHOLD_TEMPERATURE_SENSOR / cfgT.sample_size) buf s hb).2.1
    have hc := reads_calls_temperatureSensor_counts cfgT rT.2.2
    exact ⟨demo_temperatureSensor_event_spec W cfgT buf s hW hb hT hT8, hl,
      by rw [hc.1]; exact hl, hc.2⟩

set_option maxRecDepth 100000 in
theorem demo_data_event_reads_full_bound_witness :
    (StoresAtMostRequested (simWorld 0) ∧ (List.replicate 8 0).length = 8 ∧
      0 < simEnv.sensorConfig_accelerometer.sample_size ∧
      simEnv.sensorConfig_accelerometer.sample_size ≤ 8 ∧
      0 < simEnv.sensorConfig_temperatureSensor.sample_size ∧
      simEnv.sensorConfig_temperatureSensor.sample_size ≤ 8) ∧
    (let rA := accelerometer_reads (simWorld 0) simEnv.sensorConfig_accelerometer
        (SDS_THRESHOLD_ACCELEROMETER / simEnv.sensorConfig_accelerometer.sample_size)
        (List.replicate 8 0) simRecord
      let tA := reads_calls (accelerometer_record_calls simEnv.sensorConfig_accelerometer) rA.2.2
      let rT := temperatureSensor_reads (simWorld 0) simEnv.sensorConfig_temperatureSensor
        (SDS_THRESHOLD_TEMPERATURE_SENSOR / simEnv.sensorConfig_temperatureSensor.sample_size)
        (List.replicate 8 0) simRecord
      let tT := reads_calls
        (temperatureSensor_record_calls simEnv.sensorConfig_temperatureSensor) rT.2.2
      (demo_accelerometer_event (simWorld 0) simEnv.sensorConfig_accelerometer
          (List.replicate 8 0) simRecord = some (rA.1, rA.2.1, tA) ∧
        rA.2.2.length =
          SDS_THRESHOLD_ACCELEROMETER / simEnv.sensorConfig_accelerometer.sample_size ∧
        (tA.filter Call.isSdsRead).length =
          SDS_THRESHOLD_ACCELEROMETER / simEnv.sensorConfig_accelerometer.sample_size ∧
        (tA.filter Call.isPrintf).length =
          rA.2.2.countP (fun x => decide (x.1 = simEnv.sensorConfig_accelerometer.sample_size))) ∧
      (demo_temperatureSensor_event (simWorld 0) simEnv.sensorConfig_temperatureSensor
          (List.replicate 8 0) simRecord = some (rT.1, rT.2.1, tT) ∧
        rT.2.2.length =
          SDS_THRESHOLD_TEMPERATURE_SENSOR /
            simEnv.sensorConfig_temperatureSensor.sample_size ∧
        (tT.filter Call.isSdsRead).length =
          SDS_THRESHOLD_TEMPERATURE_SENSOR /
            simEnv.sensorConfig_temperatureSensor.sample_size ∧
        (tT.filter Call.isPrintf).length =
          rT.2.2.countP
            (fun x => decide (x.1 = simEnv.sensorConfig_temperatureSensor.sample_size)))) ∧
    (accelerometer_reads (simWorld 0) simEnv.sensorConfig_accelerometer
        (SDS_THRESHOLD_ACCELEROMETER / simEnv.sensorConfig_accelerometer.sample_size)
        (List.replicate 8 0) simRecord).2.2.countP
      (fun x => decide (x.1 = simEnv.sensorConfig_accelerometer.sample_size)) = 1 ∧
    (accelerometer_reads (simWorld 0) simEnv.sensorConfig_accelerometer
        (SDS_THRESHOLD_ACCELEROMETER / simEnv.sensorConfig_accelerometer.sample_size)
        (List.replicate 8 0) simRecord).2.2.length = 104 :=
  ⟨⟨simWorld_storesAtMostRequested 0, by decide, by decide, by decide, by decide, by decide⟩,
    demo_data_event_reads_full_bound (simWorld 0) simEnv.sensorConfig_accelerometer
      simEnv.sensorConfig_temperatureSensor (List.replicate 8 0) simRecord
      (simWorld_storesAtMostRequested 0) (by decide) (by decide) (by decide) (by decide)
      (by decide),
    by rfl, by rfl⟩

/-- C9 (amended): for the accelerometer's 6-byte records, a record buffer of 8
bytes and a stream buffer that stores at most the bytes requested, the read loop
is defined and prints one report after each read that returned a whole record,
on the results the environment returns to the reads; the reported values are
`data_u16[0..2]`, the 16-bit unsigned integers decoded little-endian from the
byte pairs (b0,b1), (b2,b3), (b4,b5) of the record buffer, in that order; a
field with bytes FF FF is reported as 65535 and every reported value lies in
0..65535. -/
theorem demo_accelerometer_loop_reports_unsigned {σ : Type} (W : World σ)
    (cfg : sensorConfig_t) (n : Nat) (buf : List Nat) (s : σ)
    (hW : StoresAtMostRequested W) (hs : cfg.sample_size = 6) (hb : buf.length = 8) :
    demo_accelerometer_loop W cfg n buf s =
      some ((accelerometer_reads W cfg n buf s).1, (accelerometer_reads W cfg n buf s).2.1,
        reads_calls (accelerometer_record_calls cfg) (accelerometer_reads W cfg n buf s).2.2) ∧
    (∀ b0 b1 b2 b3 b4 b5 rest, b0 < 256 → b1 < 256 → b2 < 256 → b3 < 256 → b4 < 256 →
      b5 < 256 →
      accelerometer_record_calls cfg cfg.sample_size (b0 :: b1 :: b2 :: b3 :: b4 :: b5 :: rest) =
        [Call.sdsRead Sensor.accelerometer cfg.sample_size cfg.sample_size
            (b0 :: b1 :: b2 :: b3 :: b4 :: b5 :: rest),
          Call.printf "%s: x=%i, y=%i, z=%i\r\n"
            [PrintfArg.str cfg.name, PrintfArg.int (Int.ofNat (b0 + 256 * b1)),
              PrintfArg.int (Int.ofNat (b2 + 256 * b3)),
              PrintfArg.int (Int.ofNat (b4 + 256 * b5))]]) ∧
    (∀ b i, 0 ≤ data_u16 b i ∧ data_u16 b i ≤ 65535) ∧
    (∀ rest, data_u16 (0xFF :: 0xFF :: rest) 0 = 65535) := by
  refine ⟨(demo_accelerometer_loop_spec W cfg hW (by omega) n buf s hb).1, ?_, ?_, ?_⟩
  · intro b0 b1 b2 b3 b4 b5 rest h0 h1 h2 h3 h4 h5
    simp [accelerometer_record_calls, data_u16, List.getD, Nat.mod_eq_of_lt, h0, h1, h2, h3,
      h4, h5]
  · intro b i
    unfold data_u16
    constructor
    · exact Int.ofNat_nonneg _
    · have h1 : b.getD (2 * i) 0 % 256 < 256 := Nat.mod_lt _ (by decide)
      have h2 : b.getD (2 * i + 1) 0 % 256 < 256 := Nat.mod_lt _ (by decide)
      have : b.getD (2 * i) 0 % 256 + 256 * (b.getD (2 * i + 1) 0 % 256) ≤ 65535 := by omega
      exact Int.ofNat_le.mpr this
  · intro rest
    simp [data_u16, List.getD]

theorem demo_accelerometer_loop_reports_unsigned_witness :
    (StoresAtMostRequested (simWorld 0) ∧ simEnv.sensorConfig_accelerometer.sample_size = 6 ∧
      (List.replicate 8 0).length = 8 ∧
      0xFF < 256 ∧ 0x01 < 256 ∧ 0x00 < 256 ∧ 0x80 < 256) ∧
    demo_accelerometer_loop (simWorld 0) simEnv.sensorConfig_accelerometer 1
        (List.replicate 8 0) simRecord =
      some ((accelerometer_reads (simWorld 0) simEnv.sensorConfig_accelerometer 1
            (List.replicate 8 0) simRecord).1,
        (accelerometer_reads (simWorld 0) simEnv.sensorConfig_accelerometer 1
            (List.replicate 8 0) simRecord).2.1,
        reads_calls (accelerometer_record_calls simEnv.sensorConfig_accelerometer)
          (accelerometer_reads (simWorld 0) simEnv.sensorConfig_accelerometer 1
            (List.replicate 8 0) simRecord).2.2) ∧
    (accelerometer_reads (simWorld 0) simEnv.sensorConfig_accelerometer 1
        (List.replicate 8 0) simRecord).2.2 = [(6, [0xFF, 0xFF, 0x01, 0x00, 0x00, 0x80, 0, 0])] ∧
    accelerometer_record_calls simEnv.sensorConfig_accelerometer
        simEnv.sensorConfig_accelerometer.sample_size
        (0xFF :: 0xFF :: 0x01 :: 0x00 :: 0x00 :: 0x80 :: [0, 0]) =
      [Call.sdsRead Sensor.accelerometer simEnv.sensorConfig_accelerometer.sample_size
          simEnv.sensorConfig_accelerometer.sample_size
          (0xFF :: 0xFF :: 0x01 :: 0x00 :: 0x00 :: 0x80 :: [0, 0]),
        Call.printf "%s: x=%i, y=%i, z=%i\r\n"
          [PrintfArg.str simEnv.sensorConfig_accelerometer.name,
            PrintfArg.int (Int.ofNat (0xFF + 256 * 0xFF)),
            PrintfArg.int (Int.ofNat (0x01 + 256 * 0x00)),
            PrintfArg.int (Int.ofNat (0x00 + 256 * 0x80))]] :=
  ⟨⟨simWorld_storesAtMostRequested 0, by decide, by decide, by decide, by decide, by decide,
      by decide⟩,
    (demo_accelerometer_loop_reports_unsigned (simWorld 0) simEnv.sensorConfig_accelerometer 1
      (List.replicate 8 0) simRecord (simWorld_storesAtMostRequested 0) (by decide)
      (by decide)).1,
    by rfl,
    (demo_accelerometer_loop_reports_unsigned (simWorld 0) simEnv.sensorConfig_accelerometer 1
      (List.replicate 8 0) simRecord (simWorld_storesAtMostRequested 0) (by decide)
      (by decide)).2.1 0xFF 0xFF 0x01 0x00 0x00 0x80 [0, 0]
      (by decide) (by decide) (by decide) (by decide) (by decide) (by decide)⟩

theorem button_stage_spec_filters {σ : Type} (W : World σ) (R : Bool) (flags : Nat)
    (st : DemoState) (s : σ) :
    (button_stage_spec W R flags st s).1.buf = st.buf ∧
    (∀ id, ((button_stage_spec W R flags st s).2.2.filter (Call.togglesSensor id)).length =
      if flags &&& EVENT_BUTTON ≠ 0 then 1 else 0) ∧
    (∀ id, (button_stage_spec W R flags st s).2.2.filter (Call.readsStream id) = []) ∧
    (button_stage_spec W R flags st s).2.2.filter Call.isOsThreadFlagsWait = [] := by
  unfold button_stage_spec
  by_cases hb : flags &&& EVENT_BUTTON = 0
  · simp [hb]
  · simp only [ne_eq, hb, not_false_eq_true, if_true]
    refine ⟨rfl, fun id => ?_, fun id => ?_, ?_⟩
    · exact (toggle_calls_filters R _ _ _ _ _ _ id).1
    · exact (toggle_calls_filters R _ _ _ _ _ _ id).2.1
    · exact (toggle_calls_filters R _ _ _ _ _ _ Sensor.accelerometer).2.2

theorem accelerometer_stage_spec_filters {σ : Type} (W : World σ) (cfg : sensorConfig_t)
    (flags : Nat) (buf : List Nat) (s : σ) (hW : StoresAtMostRequested W)
    (hb : buf.length = 8) (h8 : cfg.sample_size ≤ 8) :
    (accelerometer_stage_spec W cfg flags buf s).1.length = 8 ∧
    (∀ id, (accelerometer_stage_spec W cfg flags buf s).2.2.filter
      (Call.togglesSensor id) = []) ∧
    ((accelerometer_stage_spec W cfg flags buf s).2.2.filter
        (Call.readsStream Sensor.accelerometer)).length =
      (if flags &&& EVENT_DATA_ACCELEROMETER ≠ 0 then
        SDS_THRESHOLD_ACCELEROMETER / cfg.sample_size else 0) ∧
    (accelerometer_stage_spec W cfg flags buf s).2.2.filter
      (Call.readsStream Sensor.temperatureSensor) = [] ∧
    (accelerometer_stage_spec W cfg flags buf s).2.2.filter Call.isOsThreadFlagsWait = [] := by
  unfold accelerometer_stage_spec
  by_cases ha : flags &&& EVENT_DATA_ACCELEROMETER = 0
  · simp [ha, hb]
  · simp only [ne_eq, ha, not_false_eq_true, if_true]
    obtain ⟨-, hl, hb'⟩ := demo_accelerometer_loop_spec W cfg hW h8
      (SDS_THRESHOLD_ACCELEROMETER / cfg.sample_size) buf s hb
    have hf := reads_calls_accelerometer_filters cfg
      (accelerometer_reads W cfg (SDS_THRESHOLD_ACCELEROMETER / cfg.sample_size) buf s).2.2
    exact ⟨hb', hf.1, by rw [hf.2.1, hl], hf.2.2.1, hf.2.2.2⟩

theorem temperatureSensor_stage_spec_filters {σ : Type} (W : World σ) (cfg : sensorConfig_t)
    (flags : Nat) (buf : List Nat) (s : σ) (hW : StoresAtMostRequested W)
    (hb : buf.length = 8) (h8 : cfg.sample_size ≤ 8) :
    (∀ id, (temperatureSensor_stage_spec W cfg flags buf s).2.2.filter
      (Call.togglesSensor id) = []) ∧
    ((temperatureSensor_stage_spec W cfg flags buf s).2.2.filter
        (Call.readsStream Sensor.temperatureSensor)).length =
      (if flags &&& EVENT_DATA_TEMPERATURE_SENSOR ≠ 0 then
        SDS_THRESHOLD_TEMPERATURE_SENSOR / cfg.sample_size else 0) ∧
    (temperatureSensor_stage_spec W cfg flags buf s).2.2.filter
      (Call.readsStream Sensor.accelerometer) = [] ∧
    (temperatureSensor_stage_spec W cfg flags buf s).2.2.filter Call.isOsThreadFlagsWait = [] := by
  unfold temperatureSensor_stage_spec
  by_cases ht : flags &&& EVENT_DATA_TEMPERATURE_SENSOR = 0
  · simp [ht]
  · simp only [ne_eq, ht, not_false_eq_true, if_true]
    obtain ⟨-, hl, -⟩ := demo_temperatureSensor_loop_spec W cfg hW h8
      (SDS_THRESHOLD_TEMPERATURE_SENSOR / cfg.sample_size) buf s hb
    have hf := reads_calls_temperatureSensor_filters cfg
      (temperatureSensor_reads W cfg
        (SDS_THRESHOLD_TEMPERATURE_SENSOR / cfg.sample_size) buf s).2.2
    exact ⟨hf.1, by rw [hf.2.1, hl], hf.2.2.1, hf.2.2.2⟩

theorem demo_dispatch_spec {σ : Type} (W : World σ) (H : Headers) (R : Bool) (e : SamplerEnv)
    (flags : Nat) (st : DemoState) (s : σ) (hW : StoresAtMostRequested W)
    (hb : st.buf.length = 8)
    (hA : flags &&& EVENT_DATA_ACCELEROMETER ≠ 0 →
      0 < e.sensorConfig_accelerometer.sample_size ∧
      e.sensorConfig_accelerometer.sample_size ≤ 8)
    (hT : flags &&& EVENT_DATA_TEMPERATURE_SENSOR ≠ 0 →
      0 < e.sensorConfig_temperatureSensor.sample_size ∧
      e.sensorConfig_temperatureSensor.sample_size ≤ 8)
    (hflags : flags &&& H.osFlagsError = 0) :
    demo_dispatch W H R e flags st s =
      some ({ (button_stage_spec W R flags st s).1 with
          buf := (temperatureSensor_stage_spec W e.sensorConfig_temperatureSensor flags
            (accelerometer_stage_spec W e.sensorConfig_accelerometer flags st.buf
              (button_stage_spec W R flags st s).2.1).1
            (accelerometer_stage_spec W e.sensorConfig_accelerometer flags st.buf
              (button_stage_spec W R flags st s).2.1).2.1).1 },
        (temperatureSensor_stage_spec W e.sensorConfig_temperatureSensor flags
          (accelerometer_stage_spec W e.sensorConfig_accelerometer flags st.buf
            (button_stage_spec W R flags st s).2.1).1
          (accelerometer_stage_spec W e.sensorConfig_accelerometer flags st.buf
            (button_stage_spec W R flags st s).2.1).2.1).2.1,
        (button_stage_spec W R flags st s).2.2 ++
          (accelerometer_stage_spec W e.sensorConfig_accelerometer flags st.buf
            (button_stage_spec W R flags st s).2.1).2.2 ++
          (temperatureSensor_stage_spec W e.sensorConfig_temperatureSensor flags
            (accelerometer_stage_spec W e.sensorConfig_accelerometer flags st.buf
              (button_stage_spec W R flags st s).2.1).1
            (accelerometer_stage_spec W e.sensorConfig_accelerometer flags st.buf
              (button_stage_spec W R flags st s).2.1).2.1).2.2) := by
  have hbuf := (button_stage_spec_filters W R flags st s).1
  have stage1 :
      (if flags &&& EVENT_BUTTON ≠ 0 then demo_button_event W R st else pure st) s =
        some (button_stage_spec W R flags st s) := by
    unfold button_stage_spec
    by_cases hbt : flags &&& EVENT_BUTTON = 0
    · simp [hbt, Prog.pure_apply]
    · simp [hbt, demo_button_event_spec]
  generalize button_stage_spec W R flags st s = b at stage1 hbuf ⊢
  obtain ⟨st1, s1, tb⟩ := b
  simp only at hbuf
  have hb1 : st1.buf.length = 8 := by rw [hbuf]; exact hb
  have stage2 :
      (if flags &&& EVENT_DATA_ACCELEROMETER ≠ 0 then do
          let buf ← demo_accelerometer_event W e.sensorConfig_accelerometer st1.buf
          pure { st1 with buf := buf }
        else pure st1) s1 =
        some ({ st1 with buf :=
            (accelerometer_stage_spec W e.sensorConfig_accelerometer flags st.buf s1).1 },
          (accelerometer_stage_spec W e.sensorConfig_accelerometer flags st.buf s1).2.1,
          (accelerometer_stage_spec W e.sensorConfig_accelerometer flags st.buf s1).2.2) := by
    unfold accelerometer_stage_spec
    by_cases ha : flags &&& EVENT_DATA_ACCELEROMETER = 0
    · simp [ha, Prog.pure_apply, ← hbuf]
    · simp [ha, Prog.bind_apply, Prog.pure_apply, hbuf,
        demo_accelerometer_event_spec W e.sensorConfig_accelerometer st.buf s1 hW hb
          (hA ha).1 (hA ha).2]
  have hb2 : (accelerometer_stage_spec W e.sensorConfig_accelerometer flags st.buf s1).1.length
      = 8 := by
    by_cases ha : flags &&& EVENT_DATA_ACCELEROMETER = 0
    · simp [accelerometer_stage_spec, ha, hb]
    · exact (accelerometer_stage_spec_filters W e.sensorConfig_accelerometer flags st.buf s1 hW
        hb (hA ha).2).1
  generalize accelerometer_stage_spec W e.sensorConfig_accelerometer flags st.buf s1 = a
    at stage2 hb2 ⊢
  obtain ⟨buf2, s2, ta⟩ := a
  simp only at stage2 hb2 ⊢
  have stage3 :
      (if flags &&& EVENT_DATA_TEMPERATURE_SENSOR ≠ 0 then do
          let buf ← demo_temperatureSensor_event W e.sensorConfig_temperatureSensor
            ({ st1 with buf := buf2 } : DemoState).buf
          pure { ({ st1 with buf := buf2 } : DemoState) with buf := buf }
        else pure { st1 with buf := buf2 }) s2 =
        some ({ st1 with buf :=
            (temperatureSensor_stage_spec W e.sensorConfig_temperatureSensor flags buf2 s2).1 },
          (temperatureSensor_stage_spec W e.sensorConfig_temperatureSensor flags buf2 s2).2.1,
          (temperatureSensor_stage_spec W e.sensorConfig_temperatureSensor flags buf2 s2).2.2) := by
    unfold temperatureSensor_stage_spec
    by_cases ht : flags &&& EVENT_DATA_TEMPERATURE_SENSOR = 0
    · simp [ht, Prog.pure_apply]
    · simp [ht, Prog.bind_apply, Prog.pure_apply,
        demo_temperatureSensor_event_spec W e.sensorConfig_temperatureSensor buf2 s2 hW hb2
          (hT ht).1 (hT ht).2]
  unfold demo_dispatch
  simp only [hflags, if_true, Prog.bind_apply, stage1, stage2, stage3, List.append_assoc]

/-- C7: one wake cycle of the dispatch loop of `demo`, on the flags `flags` that
the environment's event wait returns without the error indication, with the
8-byte record buffer and sample sizes of 1 to 8 bytes on the streams whose data
bit is set, is defined and is exactly: the wait, then the control part `b`, then
the accelerometer part `a`, then the temperature part `t`. Each part is computed
from the environment: it is empty and leaves the state alone when its bit is
clear, and it is the full handler run on the state the part before it left when
its bit is set (`button_event_spec` for the control bit, whatever the data bits;
the `threshold / sample_size` stream reads for a data bit). So each channel is
toggled once exactly when the control bit is set, a stream is read
`threshold / sample_size` times exactly when its data bit is set, and the cycle
waits once, before any handling. -/
theorem demo_iteration_services_set_bits {σ : Type} (W : World σ) (H : Headers) (R : Bool)
    (e : SamplerEnv) (st : DemoState) (s : σ) (flags : Nat)
    (hW : StoresAtMostRequested W) (hb : st.buf.length = 8)
    (hA : flags &&& EVENT_DATA_ACCELEROMETER ≠ 0 →
      0 < e.sensorConfig_accelerometer.sample_size ∧
      e.sensorConfig_accelerometer.sample_size ≤ 8)
    (hT : flags &&& EVENT_DATA_TEMPERATURE_SENSOR ≠ 0 →
      0 < e.sensorConfig_temperatureSensor.sample_size ∧
      e.sensorConfig_temperatureSensor.sample_size ≤ 8)
    (hw : (W.osThreadFlagsWait EVENT_MASK H.osFlagsWaitAny H.osWaitForever s).1 = flags)
    (hflags : flags &&& H.osFlagsError = 0) :
    let s0 := (W.osThreadFlagsWait EVENT_MASK H.osFlagsWaitAny H.osWaitForever s).2
    let b := if flags &&& EVENT_BUTTON ≠ 0 then button_event_spec W R st s0 else (st, s0, [])
    let a := accelerometer_stage_spec W e.sensorConfig_accelerometer flags st.buf b.2.1
    let t := temperatureSensor_stage_spec W e.sensorConfig_temperatureSensor flags a.1 a.2.1
    demo_iteration W H R e st s =
      some ({ b.1 with buf := t.1 }, t.2.1,
        Call.osThreadFlagsWait EVENT_MASK H.osFlagsWaitAny H.osWaitForever flags ::
          (b.2.2 ++ a.2.2 ++ t.2.2)) ∧
    (flags &&& EVENT_DATA_ACCELEROMETER = 0 → a = (st.buf, b.2.1, [])) ∧
    (flags &&& EVENT_DATA_ACCELEROMETER ≠ 0 →
      a.2.2 = reads_calls (accelerometer_record_calls e.sensorConfig_accelerometer)
        (accelerometer_reads W e.sensorConfig_accelerometer
          (SDS_THRESHOLD_ACCELEROMETER / e.sensorConfig_accelerometer.sample_size)
          st.buf b.2.1).2.2 ∧
      (accelerometer_reads W e.sensorConfig_accelerometer
          (SDS_THRESHOLD_ACCELEROMETER / e.sensorConfig_accelerometer.sample_size)
          st.buf b.2.1).2.2.length =
        SDS_THRESHOLD_ACCELEROMETER / e.sensorConfig_accelerometer.sample_size) ∧
    (flags &&& EVENT_DATA_TEMPERATURE_SENSOR = 0 → t = (a.1, a.2.1, [])) ∧
    (flags &&& EVENT_DATA_TEMPERATURE_SENSOR ≠ 0 →
      t.2.2 = reads_calls (temperatureSensor_record_calls e.sensorConfig_temperatureSensor)
        (temperatureSensor_reads W e.sensorConfig_temperatureSensor
          (SDS_THRESHOLD_TEMPERATURE_SENSOR / e.sensorConfig_temperatureSensor.sample_size)
          a.1 a.2.1).2.2 ∧
      (temperatureSensor_reads W e.sensorConfig_temperatureSensor
          (SDS_THRESHOLD_TEMPERATURE_SENSOR / e.sensorConfig_temperatureSensor.sample_size)
          a.1 a.2.1).2.2.length =
        SDS_THRESHOLD_TEMPERATURE_SENSOR / e.sensorConfig_temperatureSensor.sample_size) ∧
    (∀ id, ((b.2.2 ++ a.2.2 ++ t.2.2).filter (Call.togglesSensor id)).length =
      if flags &&& EVENT_BUTTON ≠ 0 then 1 else 0) ∧
    ((b.2.2 ++ a.2.2 ++ t.2.2).filter (Call.readsStream Sensor.accelerometer)).length =
      (if flags &&& EVENT_DATA_ACCELEROMETER ≠ 0 then
        SDS_THRESHOLD_ACCELEROMETER / e.sensorConfig_accelerometer.sample_size else 0) ∧
    ((b.2.2 ++ a.2.2 ++ t.2.2).filter (Call.readsStream Sensor.temperatureSensor)).length =
      (if flags &&& EVENT_DATA_TEMPERATURE_SENSOR ≠ 0 then
        SDS_THRESHOLD_TEMPERATURE_SENSOR / e.sensorConfig_temperatureSensor.sample_size
      else 0) ∧
    (b.2.2 ++ a.2.2 ++ t.2.2).filter Call.isOsThreadFlagsWait = [] := by
  intro s0 b a t
  have hbs : b = button_stage_spec W R flags st s0 := rfl
  have hdisp := demo_dispatch_spec W H R e flags st s0 hW hb hA hT hflags
  have fb := button_stage_spec_filters W R flags st s0
  have hA8 : (accelerometer_stage_spec W e.sensorConfig_accelerometer flags st.buf
      b.2.1).1.length = 8 := by
    by_cases ha : flags &&& EVENT_DATA_ACCELEROMETER = 0
    · simp [accelerometer_stage_spec, ha, hb]
    · exact (accelerometer_stage_spec_filters W e.sensorConfig_accelerometer flags st.buf
        b.2.1 hW hb (hA ha).2).1
  have fa : (∀ id, a.2.2.filter (Call.togglesSensor id) = []) ∧
      (a.2.2.filter (Call.readsStream Sensor.accelerometer)).length =
        (if flags &&& EVENT_DATA_ACCELEROMETER ≠ 0 then
          SDS_THRESHOLD_ACCELEROMETER / e.sensorConfig_accelerometer.sample_size else 0) ∧
      a.2.2.filter (Call.readsStream Sensor.temperatureSensor) = [] ∧
      a.2.2.filter Call.isOsThreadFlagsWait = [] := by
    by_cases ha : flags &&& EVENT_DATA_ACCELEROMETER = 0
    · simp [a, accelerometer_stage_spec, ha]
    · exact (accelerometer_stage_spec_filters W e.sensorConfig_accelerometer flags st.buf
        b.2.1 hW hb (hA ha).2).2
  have ft : (∀ id, t.2.2.filter (Call.togglesSensor id) = []) ∧
      (t.2.2.filter (Call.readsStream Sensor.temperatureSensor)).length =
        (if flags &&& EVENT_DATA_TEMPERATURE_SENSOR ≠ 0 then
          SDS_THRESHOLD_TEMPERATURE_SENSOR / e.sensorConfig_temperatureSensor.sample_size
        else 0) ∧
      t.2.2.filter (Call.readsStream Sensor.accelerometer) = [] ∧
      t.2.2.filter Call.isOsThreadFlagsWait = [] := by
    by_cases ht : flags &&& EVENT_DATA_TEMPERATURE_SENSOR = 0
    · simp [t, temperatureSensor_stage_spec, ht]
    · exact temperatureSensor_stage_spec_filters W e.sensorConfig_temperatureSensor flags
        a.1 a.2.1 hW hA8 (hT ht).2
  rw [← hbs] at hdisp fb
  refine ⟨?_, ?_, ?_, ?_, ?_, ?_, ?_, ?_, ?_⟩
  · simp only [demo_iteration, Prog.bind_apply, World.call_osThreadFlagsWait, hw]
    rw [show (W.osThreadFlagsWait EVENT_MASK H.osFlagsWaitAny H.osWaitForever s).2 = s0
      from rfl, hdisp]
    rfl
  · intro ha
    simp [a, accelerometer_stage_spec, ha]
  · intro ha
    refine ⟨by simp [a, accelerometer_stage_spec, ha], ?_⟩
    exact (demo_accelerometer_loop_spec W e.sensorConfig_accelerometer hW (hA ha).2
      (SDS_THRESHOLD_ACCELEROMETER / e.sensorConfig_accelerometer.sample_size) st.buf b.2.1
      hb).2.1
  · intro ht
    simp [t, temperatureSensor_stage_spec, ht]
  · intro ht
    refine ⟨by simp [t, temperatureSensor_stage_spec, ht], ?_⟩
    exact (demo_temperatureSensor_loop_spec W e.sensorConfig_temperatureSensor hW (hT ht).2
      (SDS_THRESHOLD_TEMPERATURE_SENSOR / e.sensorConfig_temperatureSensor.sample_size)
      a.1 a.2.1 hA8).2.1
  · intro id
    simp only [List.filter_append, List.length_append, fa.1 id, ft.1 id, List.length_nil,
      Nat.add_zero]
    exact fb.2.1 id
  · simp only [List.filter_append, List.length_append, fb.2.2.1 Sensor.accelerometer,
      ft.2.2.1, List.length_nil, Nat.add_zero, Nat.zero_add]
    exact fa.2.1
  · simp only [List.filter_append, List.length_append, fb.2.2.1 Sensor.temperatureSensor,
      fa.2.2.1, List.length_nil, Nat.add_zero, Nat.zero_add]
    exact ft.2.1
  · simp only [List.filter_append, fb.2.2.2, fa.2.2.2, ft.2.2.2, List.append_nil]

set_option maxRecDepth 100000 in
theorem demo_iteration_services_set_bits_witness :
    (StoresAtMostRequested (simWorld 0) ∧ simDemoRunning.buf.length = 8 ∧
      (7 &&& EVENT_DATA_ACCELEROMETER ≠ 0 →
        0 < simEnv.sensorConfig_accelerometer.sample_size ∧
        simEnv.sensorConfig_accelerometer.sample_size ≤ 8) ∧
      (7 &&& EVENT_DATA_TEMPERATURE_SENSOR ≠ 0 →
        0 < simEnv.sensorConfig_temperatureSensor.sample_size ∧
        simEnv.sensorConfig_temperatureSensor.sample_size ≤ 8) ∧
      ((simWorld 0).osThreadFlagsWait EVENT_MASK simHeaders.osFlagsWaitAny
        simHeaders.osWaitForever simWakeRecord).1 = 7 ∧
      7 &&& simHeaders.osFlagsError = 0) ∧
    (let s0 := ((simWorld 0).osThreadFlagsWait EVENT_MASK simHeaders.osFlagsWaitAny
        simHeaders.osWaitForever simWakeRecord).2
      let b := if 7 &&& EVENT_BUTTON ≠ 0 then
          button_event_spec (simWorld 0) true simDemoRunning s0
        else (simDemoRunning, s0, [])
      let a := accelerometer_stage_spec (simWorld 0) simEnv.sensorConfig_accelerometer 7
        simDemoRunning.buf b.2.1
      let t := temperatureSensor_stage_spec (simWorld 0)
        simEnv.sensorConfig_temperatureSensor 7 a.1 a.2.1
      demo_iteration (simWorld 0) simHeaders true simEnv simDemoRunning simWakeRecord =
        some ({ b.1 with buf := t.1 }, t.2.1,
          Call.osThreadFlagsWait EVENT_MASK simHeaders.osFlagsWaitAny
            simHeaders.osWaitForever 7 :: (b.2.2 ++ a.2.2 ++ t.2.2)) ∧
      (7 &&& EVENT_DATA_ACCELEROMETER = 0 → a = (simDemoRunning.buf, b.2.1, [])) ∧
      (7 &&& EVENT_DATA_ACCELEROMETER ≠ 0 →
        a.2.2 = reads_calls (accelerometer_record_calls simEnv.sensorConfig_accelerometer)
          (accelerometer_reads (simWorld 0) simEnv.sensorConfig_accelerometer
            (SDS_THRESHOLD_ACCELEROMETER / simEnv.sensorConfig_accelerometer.sample_size)
            simDemoRunning.buf b.2.1).2.2 ∧
        (accelerometer_reads (simWorld 0) simEnv.sensorConfig_accelerometer
            (SDS_THRESHOLD_ACCELEROMETER / simEnv.sensorConfig_accelerometer.sample_size)
            simDemoRunning.buf b.2.1).2.2.length =
          SDS_THRESHOLD_ACCELEROMETER / simEnv.sensorConfig_accelerometer.sample_size) ∧
      (7 &&& EVENT_DATA_TEMPERATURE_SENSOR = 0 → t = (a.1, a.2.1, [])) ∧
      (7 &&& EVENT_DATA_TEMPERATURE_SENSOR ≠ 0 →
        t.2.2 = reads_calls
          (temperatureSensor_record_calls simEnv.sensorConfig_temperatureSensor)
          (temperatureSensor_reads (simWorld 0) simEnv.sensorConfig_temperatureSensor
            (SDS_THRESHOLD_TEMPERATURE_SENSOR /
              simEnv.sensorConfig_temperatureSensor.sample_size)
            a.1 a.2.1).2.2 ∧
        (temperatureSensor_reads (simWorld 0) simEnv.sensorConfig_temperatureSensor
            (SDS_THRESHOLD_TEMPERATURE_SENSOR /
              simEnv.sensorConfig_temperatureSensor.sample_size)
            a.1 a.2.1).2.2.length =
          SDS_THRESHOLD_TEMPERATURE_SENSOR /
            simEnv.sensorConfig_temperatureSensor.sample_size) ∧
      (∀ id, ((b.2.2 ++ a.2.2 ++ t.2.2).filter (Call.togglesSensor id)).length =
        if 7 &&& EVENT_BUTTON ≠ 0 then 1 else 0) ∧
      ((b.2.2 ++ a.2.2 ++ t.2.2).filter (Call.readsStream Sensor.accelerometer)).length =
        (if 7 &&& EVENT_DATA_ACCELEROMETER ≠ 0 then
          SDS_THRESHOLD_ACCELEROMETER / simEnv.sensorConfig_accelerometer.sample_size
        else 0) ∧
      ((b.2.2 ++ a.2.2 ++ t.2.2).filter
          (Call.readsStream Sensor.temperatureSensor)).length =
        (if 7 &&& EVENT_DATA_TEMPERATURE_SENSOR ≠ 0 then
          SDS_THRESHOLD_TEMPERATURE_SENSOR /
            simEnv.sensorConfig_temperatureSensor.sample_size
        else 0) ∧
      (b.2.2 ++ a.2.2 ++ t.2.2).filter Call.isOsThreadFlagsWait = []) ∧
    (button_event_spec (simWorld 0) true simDemoRunning
        ((simWorld 0).osThreadFlagsWait EVENT_MASK simHeaders.osFlagsWaitAny
          simHeaders.osWaitForever simWakeRecord).2).2.2 =
      [Call.printf "Button pressed\r\n" [],
        Call.sensorGetStatus Sensor.accelerometer 1,
        Call.sensorDisable Sensor.accelerometer,
        Call.sdsRecClose 1,
        Call.printf "Accelerometer disabled\r\n" [],
        Call.sensorGetStatus Sensor.temperatureSensor 1,
        Call.sensorDisable Sensor.temperatureSensor,
        Call.sdsRecClose 2,
        Call.printf "Temperature sensor disabled\r\n" []] ∧
    ((accelerometer_stage_spec (simWorld 0) simEnv.sensorConfig_accelerometer 7
        simDemoRunning.buf
        (button_event_spec (simWorld 0) true simDemoRunning
          ((simWorld 0).osThreadFlagsWait EVENT_MASK simHeaders.osFlagsWaitAny
            simHeaders.osWaitForever simWakeRecord).2).2.1).2.2.filter Call.isPrintf).length
      = 1 :=
  ⟨⟨simWorld_storesAtMostRequested 0, by decide, fun _ => by decide, fun _ => by decide,
      by decide, by decide⟩,
    demo_iteration_services_set_bits (simWorld 0) simHeaders true simEnv simDemoRunning
      simWakeRecord 7 (simWorld_storesAtMostRequested 0) (by decide) (fun _ => by decide)
      (fun _ => by decide) (by decide) (by decide),
    rfl, rfl⟩

end SDSDemo
